import Mathlib

/-!
Verification of the browser-connect-mcp session telemetry store and
analysis engine.  Each TypeScript function named in the claims is given a
shallow embedding as an executable Lean definition (JavaScript numbers are
modelled as Int/Nat/Rat, JS Maps as insertion-ordered association lists,
regular-expression objects as explicit matchers, optional fields as
Option).  Theorems below settle the claims against these embeddings.
-/

namespace BrowserConnect

/-- Console message severity level, from ConsoleMessage.level in
src/types/index.ts. -/
inductive LogLevel where
  | log
  | info
  | warn
  | error
  | debug
deriving DecidableEq, Repr

/-- ConsoleMessage from src/types/index.ts.  The args and stackTrace
fields are opaque payloads never inspected by the functions verified here
(stackTrace is only measured by JSON length in scanExposedErrors, which no
claim covers), so they are omitted from the embedding. -/
structure ConsoleMessage where
  level : LogLevel
  text : String
  timestamp : Int
  url : Option String := none
  lineNumber : Option Int := none
  columnNumber : Option Int := none
deriving DecidableEq, Repr

/-- NetworkRequest from src/types/index.ts.  Headers are an
insertion-ordered key/value list, the JS Record model. -/
structure NetworkRequest where
  requestId : String
  url : String
  method : String
  headers : List (String × String) := []
  timestamp : Int
  postData : Option String := none
  resourceType : Option String := none
deriving DecidableEq, Repr

/-- NetworkResponse from src/types/index.ts. -/
structure NetworkResponse where
  requestId : String
  url : String
  status : Nat
  statusText : String := ""
  headers : List (String × String) := []
  mimeType : String := ""
  timestamp : Int
  responseTime : Option Int := none
  encodedDataLength : Option Int := none
deriving DecidableEq, Repr

/-! ## Generic helpers: JS array / Map semantics -/

/-- Last n elements of a list, in order: the semantics of JS slice(-n)
and of repeated FIFO eviction. -/
def takeLast (n : Nat) (l : List α) : List α :=
  l.drop (l.length - n)

/-- One capped FIFO append: push the element, then drop the oldest entry
if the buffer exceeds cap.  Mirrors the push / length check / shift
sequence in BrowserManager.setupConsoleListeners. -/
def cappedPush (cap : Nat) (buf : List α) (a : α) : List α :=
  let b := buf ++ [a]
  if b.length > cap then b.tail else b

/-! ## JS Map semantics: insertion-ordered association list -/

/-- JS Map.set: replace the value in place if the key is present
(keeping its position in iteration order), otherwise append. -/
def jsMapSet (m : List (String × α)) (k : String) (v : α) :
    List (String × α) :=
  match m with
  | [] => [(k, v)]
  | (k0, v0) :: rest =>
    if k0 = k then (k, v) :: rest else (k0, v0) :: jsMapSet rest k v

/-- JS Map.delete: remove the (unique) entry with the given key. -/
def jsMapDelete (m : List (String × α)) (k : String) :
    List (String × α) :=
  match m with
  | [] => []
  | (k0, v0) :: rest =>
    if k0 = k then rest else (k0, v0) :: jsMapDelete rest k

/-- One capped keyed insertion: Map.set followed by eviction of the first
key when the size exceeds cap.  Mirrors the requestWillBeSent and
responseReceived listeners in BrowserManager.setupNetworkListeners. -/
def cappedMapSet (cap : Nat) (key : α → String) (buf : List (String × α))
    (a : α) : List (String × α) :=
  let b := jsMapSet buf (key a) a
  if b.length > cap then
    match b.head? with
    | some p => jsMapDelete b p.1
    | none => b
  else b

/-! ## Session store: BrowserManager buffers (src/utils/browser-manager) -/

/-- Console ring cap: the literal 10000 in setupConsoleListeners. -/
def consoleCap : Nat := 10000

/-- Request/response index cap: the literal 5000 in setupNetworkListeners. -/
def networkCap : Nat := 5000

/-- Ingestion of one console message, as performed by both the
Console.messageAdded and Runtime.consoleAPICalled listeners: push, then
shift the oldest message if the buffer length exceeds 10000. -/
def pushConsoleMessage (buf : List ConsoleMessage) (m : ConsoleMessage) :
    List ConsoleMessage :=
  cappedPush consoleCap buf m

/-- Ingestion of one request by the Network.requestWillBeSent listener:
Map.set keyed by requestId, then delete the first key if the Map size
exceeds 5000. -/
def pushNetworkRequest (buf : List (String × NetworkRequest))
    (r : NetworkRequest) : List (String × NetworkRequest) :=
  cappedMapSet networkCap (fun q => q.requestId) buf r

/-- Ingestion of one response by the Network.responseReceived listener. -/
def pushNetworkResponse (buf : List (String × NetworkResponse))
    (r : NetworkResponse) : List (String × NetworkResponse) :=
  cappedMapSet networkCap (fun q => q.requestId) buf r

/-- Buffer contents after a session ingests a whole console stream,
starting from the empty buffer installed by connectToTab. -/
def ingestConsoleStream (s : List ConsoleMessage) : List ConsoleMessage :=
  s.foldl pushConsoleMessage []

/-- Request index after ingesting a stream of requests. -/
def ingestRequestStream (s : List NetworkRequest) :
    List (String × NetworkRequest) :=
  s.foldl pushNetworkRequest []

/-- Response index after ingesting a stream of responses. -/
def ingestResponseStream (s : List NetworkResponse) :
    List (String × NetworkResponse) :=
  s.foldl pushNetworkResponse []

/-! ## Witness inputs for claim C1 -/

/-- Message builder for the C1 witness stream. -/
def c1MkMsg (i : Nat) : ConsoleMessage :=
  { level := LogLevel.log, text := "m", timestamp := Int.ofNat i }

/-- Concrete console stream of 10001 messages used by the C1 witness. -/
def c1ConsoleStreamW : List ConsoleMessage :=
  (List.range 10001).map c1MkMsg

/-- Distinct request ids for the C1 witness. -/
def c1IdOf (n : Nat) : String :=
  String.mk (List.replicate n 'r')

/-- Request builder for the C1 witness stream. -/
def c1MkReq (i : Nat) : NetworkRequest :=
  { requestId := c1IdOf i, url := "https://e.test/", method := "GET",
    timestamp := Int.ofNat i }

/-- Concrete request stream of 5001 distinct-id requests. -/
def c1RequestStreamW : List NetworkRequest :=
  (List.range 5001).map c1MkReq

/-- Response builder for the C1 witness stream. -/
def c1MkResp (i : Nat) : NetworkResponse :=
  { requestId := c1IdOf i, url := "https://e.test/", status := 200,
    timestamp := Int.ofNat i }

/-- Concrete response stream of 5001 distinct-id responses. -/
def c1ResponseStreamW : List NetworkResponse :=
  (List.range 5001).map c1MkResp

/-! ## String helpers with JavaScript semantics (ASCII inputs) -/

/-- JS String.toLowerCase, for the ASCII strings handled here. -/
def jsToLower (s : String) : String :=
  String.mk (s.data.map Char.toLower)

/-- JS String.toUpperCase, for the ASCII strings handled here. -/
def jsToUpper (s : String) : String :=
  String.mk (s.data.map Char.toUpper)

/-- JS String.includes: pat occurs contiguously inside s. -/
def strContains (s pat : String) : Bool :=
  s.data.tails.any (fun t => pat.data.isPrefixOf t)

/-! ## Query engine: searchConsoleMessages (src/utils/search.ts) -/

/-- SearchOptions from src/types/index.ts.  A single level argument and a
level array are both normalized to a list, as the source does with
Array.isArray. -/
structure SearchOptions where
  pattern : Option String := none
  regex : Option Bool := none
  caseSensitive : Option Bool := none
  level : Option (List LogLevel) := none
  startTime : Option Int := none
  endTime : Option Int := none
  limit : Option Int := none

/-- JS truthiness-gated limit application: the final
`if (options.limit && options.limit > 0) filtered.slice(-limit)` step. -/
def applyJsLimit (limit : Option Int) (l : List α) : List α :=
  match limit with
  | some n => if n > 0 then takeLast n.toNat l else l
  | none => l

/-- Level filter stage of searchConsoleMessages (gated by
`if (options.level)`). -/
def consoleFilterLevel (options : SearchOptions)
    (msgs : List ConsoleMessage) : List ConsoleMessage :=
  match options.level with
  | some levels => msgs.filter (fun msg => levels.contains msg.level)
  | none => msgs

/-- Start-time filter stage (gated by JS truthiness, so a 0 start time
disables the filter). -/
def consoleFilterStart (options : SearchOptions)
    (msgs : List ConsoleMessage) : List ConsoleMessage :=
  match options.startTime with
  | some t => if t = 0 then msgs
      else msgs.filter (fun msg => msg.timestamp ≥ t)
  | none => msgs

/-- End-time filter stage. -/
def consoleFilterEnd (options : SearchOptions)
    (msgs : List ConsoleMessage) : List ConsoleMessage :=
  match options.endTime with
  | some t => if t = 0 then msgs
      else msgs.filter (fun msg => msg.timestamp ≤ t)
  | none => msgs

/-- Pattern filter stage.  Regular-expression testing
(`new RegExp(pattern, caseSensitive ? '' : 'i').test`) is abstracted as
the function argument regexTest pattern caseSensitive text; a pattern
that fails to compile would abort the whole query in the source and is
out of scope here.  Note the source lowercases the literal pattern
unconditionally but lowercases the text only when caseSensitive is
falsy. -/
def consoleFilterPattern (regexTest : String → Bool → String → Bool)
    (options : SearchOptions) (msgs : List ConsoleMessage) :
    List ConsoleMessage :=
  let cs := options.caseSensitive.getD false
  match options.pattern with
  | some p =>
    if p = "" then msgs
    else if options.regex.getD false then
      msgs.filter (fun msg =>
        regexTest p cs (if cs then msg.text else jsToLower msg.text))
    else
      msgs.filter (fun msg =>
        strContains (if cs then msg.text else jsToLower msg.text)
          (jsToLower p))
  | none => msgs

/-- searchConsoleMessages: the four filters in source order, then the
JS-truthiness-gated limit slice. -/
def searchConsoleMessages (regexTest : String → Bool → String → Bool)
    (messages : List ConsoleMessage) (options : SearchOptions) :
    List ConsoleMessage :=
  applyJsLimit options.limit
    (consoleFilterPattern regexTest options
      (consoleFilterEnd options
        (consoleFilterStart options
          (consoleFilterLevel options messages))))

/-- Level clause of the console filter, as a total predicate. -/
def consoleLevelPass (options : SearchOptions) (msg : ConsoleMessage) :
    Bool :=
  match options.level with
  | some levels => levels.contains msg.level
  | none => true

/-- Start-time clause (inclusive; disabled by absence or JS-falsy 0). -/
def consoleStartPass (options : SearchOptions) (msg : ConsoleMessage) :
    Bool :=
  match options.startTime with
  | some t => if t = 0 then true else msg.timestamp ≥ t
  | none => true

/-- End-time clause (inclusive; disabled by absence or JS-falsy 0). -/
def consoleEndPass (options : SearchOptions) (msg : ConsoleMessage) :
    Bool :=
  match options.endTime with
  | some t => if t = 0 then true else msg.timestamp ≤ t
  | none => true

/-- Pattern clause exactly as the source implements it. -/
def consolePatternPass (regexTest : String → Bool → String → Bool)
    (options : SearchOptions) (msg : ConsoleMessage) : Bool :=
  let cs := options.caseSensitive.getD false
  match options.pattern with
  | some p =>
    if p = "" then true
    else if options.regex.getD false then
      regexTest p cs (if cs then msg.text else jsToLower msg.text)
    else
      strContains (if cs then msg.text else jsToLower msg.text)
        (jsToLower p)
  | none => true

/-- Conjunction of the four console filter clauses. -/
def matchesConsoleQuery (regexTest : String → Bool → String → Bool)
    (options : SearchOptions) (msg : ConsoleMessage) : Bool :=
  consoleLevelPass options msg && consoleStartPass options msg &&
    consoleEndPass options msg && consolePatternPass regexTest options msg

/-- Modelled from the spec: the pattern clause the claim describes, a
literal substring test honouring the case-sensitivity flag on both sides
(pattern untouched when case-sensitive).  Used only to exhibit the C3
counterexample against the source behaviour. -/
def specCaseSensitiveSubstringTest (options : SearchOptions)
    (msg : ConsoleMessage) : Bool :=
  match options.pattern with
  | some p =>
    if options.caseSensitive.getD false then strContains msg.text p
    else strContains (jsToLower msg.text) (jsToLower p)
  | none => true

/-- Console message for the C3 counterexample. -/
def c3Msg : ConsoleMessage :=
  { level := LogLevel.error, text := "ERROR", timestamp := 1 }

/-- Case-sensitive literal search options for the C3 counterexample. -/
def c3Opts : SearchOptions :=
  { pattern := some "ERR", regex := some false, caseSensitive := some true }


/-! ## Query engine: searchNetworkRequests (src/utils/search.ts) -/

/-- NetworkSearchOptions from src/types/index.ts, with single-or-array
fields normalized to lists as the source does. -/
structure NetworkSearchOptions where
  urlPattern : Option String := none
  method : Option (List String) := none
  statusCode : Option (List Nat) := none
  statusRange : Option (Nat × Nat) := none
  resourceType : Option (List String) := none
  minDuration : Option Int := none
  maxDuration : Option Int := none
  startTime : Option Int := none
  endTime : Option Int := none
  limit : Option Int := none

/-- Lookup in the Map built by `new Map(responses.map(r =>
[r.requestId, r]))`: a later response with the same requestId overwrites
an earlier one, so the last match wins. -/
def responseMapGet (responses : List NetworkResponse) (id : String) :
    Option NetworkResponse :=
  (responses.filter (fun r => r.requestId = id)).getLast?

/-- URL-pattern filter stage; `new RegExp(options.urlPattern, 'i').test`
is abstracted as urlTest pattern url.  Gated by JS truthiness (empty
pattern string disables it). -/
def netFilterUrl (urlTest : String → String → Bool)
    (options : NetworkSearchOptions)
    (l : List (NetworkRequest × Option NetworkResponse)) :
    List (NetworkRequest × Option NetworkResponse) :=
  match options.urlPattern with
  | some p => if p = "" then l else l.filter (fun x => urlTest p x.1.url)
  | none => l

/-- HTTP-method filter stage (`methods.includes(method.toUpperCase())`). -/
def netFilterMethod (options : NetworkSearchOptions)
    (l : List (NetworkRequest × Option NetworkResponse)) :
    List (NetworkRequest × Option NetworkResponse) :=
  match options.method with
  | some methods =>
    l.filter (fun x => methods.contains (jsToUpper x.1.method))
  | none => l

/-- Status-code filter stage: requires a response whose status is in the
requested set. -/
def netFilterStatusCode (options : NetworkSearchOptions)
    (l : List (NetworkRequest × Option NetworkResponse)) :
    List (NetworkRequest × Option NetworkResponse) :=
  match options.statusCode with
  | some codes =>
    l.filter (fun x =>
      match x.2 with
      | some resp => codes.contains resp.status
      | none => false)
  | none => l

/-- Status-range filter stage (inclusive bounds, response required). -/
def netFilterStatusRange (options : NetworkSearchOptions)
    (l : List (NetworkRequest × Option NetworkResponse)) :
    List (NetworkRequest × Option NetworkResponse) :=
  match options.statusRange with
  | some range =>
    l.filter (fun x =>
      match x.2 with
      | some resp => range.1 ≤ resp.status && resp.status ≤ range.2
      | none => false)
  | none => l

/-- Resource-type filter stage (`request.resourceType &&
types.includes(request.resourceType)`; an empty string is JS-falsy). -/
def netFilterResourceType (options : NetworkSearchOptions)
    (l : List (NetworkRequest × Option NetworkResponse)) :
    List (NetworkRequest × Option NetworkResponse) :=
  match options.resourceType with
  | some types =>
    l.filter (fun x =>
      match x.1.resourceType with
      | some t => !(t = "") && types.contains t
      | none => false)
  | none => l

/-- Duration filter stage: active when minDuration or maxDuration is
defined; entries without a response or without a measured responseTime
are rejected, then the inclusive bounds are applied. -/
def netFilterDuration (options : NetworkSearchOptions)
    (l : List (NetworkRequest × Option NetworkResponse)) :
    List (NetworkRequest × Option NetworkResponse) :=
  if options.minDuration.isSome || options.maxDuration.isSome then
    l.filter (fun x =>
      match x.2 with
      | none => false
      | some resp =>
        match resp.responseTime with
        | none => false
        | some t =>
          (match options.minDuration with
           | some d => decide (t ≥ d)
           | none => true) &&
          (match options.maxDuration with
           | some d => decide (t ≤ d)
           | none => true))
  else l

/-- Request start-time filter stage (JS truthiness gate). -/
def netFilterStart (options : NetworkSearchOptions)
    (l : List (NetworkRequest × Option NetworkResponse)) :
    List (NetworkRequest × Option NetworkResponse) :=
  match options.startTime with
  | some t => if t = 0 then l else l.filter (fun x => x.1.timestamp ≥ t)
  | none => l

/-- Request end-time filter stage (JS truthiness gate). -/
def netFilterEnd (options : NetworkSearchOptions)
    (l : List (NetworkRequest × Option NetworkResponse)) :
    List (NetworkRequest × Option NetworkResponse) :=
  match options.endTime with
  | some t => if t = 0 then l else l.filter (fun x => x.1.timestamp ≤ t)
  | none => l

/-- searchNetworkRequests: pair every request with its response (if
any), run the eight filters in source order, then apply the limit
slice. -/
def searchNetworkRequests (urlTest : String → String → Bool)
    (requests : List NetworkRequest) (responses : List NetworkResponse)
    (options : NetworkSearchOptions) :
    List (NetworkRequest × Option NetworkResponse) :=
  applyJsLimit options.limit
    (netFilterEnd options
      (netFilterStart options
        (netFilterDuration options
          (netFilterResourceType options
            (netFilterStatusRange options
              (netFilterStatusCode options
                (netFilterMethod options
                  (netFilterUrl urlTest options
                    (requests.map (fun request =>
                      (request, responseMapGet responses
                        request.requestId)))))))))))

/-! ## Query engine: analyzeNetworkPerformance (src/utils/search.ts) -/

/-- Lookup in an association list (JS object property access). -/
def jsMapGet (m : List (String × α)) (k : String) : Option α :=
  match m with
  | [] => none
  | (k0, v) :: rest => if k0 = k then some v else jsMapGet rest k

/-- JS `counts[key] = (counts[key] || 0) + 1` on an insertion-ordered
record. -/
def jsRecordIncr (m : List (String × Nat)) (k : String) :
    List (String × Nat) :=
  jsMapSet m k ((jsMapGet m k).getD 0 + 1)

/-- Coarse status class: `Math.floor(status / 100) + "xx"`. -/
def statusGroupOf (status : Nat) : String :=
  toString (status / 100) ++ "xx"

/-- Loop state of the analyzeNetworkPerformance request loop. -/
structure PerfAcc where
  durations : List Int := []
  slowRequests : List (String × Int) := []
  statusCounts : List (String × Nat) := []
  typeCounts : List (String × Nat) := []
  failedCount : Nat := 0
deriving DecidableEq, Repr

/-- One iteration of the analyzeNetworkPerformance loop: count the
resource type (JS truthiness gate), and if the request has a response,
count its status group, count failures (status >= 400), and record its
measured responseTime in durations and slowRequests. -/
def perfStep (lookup : String → Option NetworkResponse) (acc : PerfAcc)
    (request : NetworkRequest) : PerfAcc :=
  let acc1 := match request.resourceType with
    | some t =>
      if t = "" then acc
      else { acc with typeCounts := jsRecordIncr acc.typeCounts t }
    | none => acc
  match lookup request.requestId with
  | none => acc1
  | some response =>
    let sc := jsRecordIncr acc1.statusCounts (statusGroupOf response.status)
    let acc2 := { acc1 with statusCounts := sc }
    let acc3 := if response.status ≥ 400 then
        { acc2 with failedCount := acc2.failedCount + 1 }
      else acc2
    match response.responseTime with
    | some t =>
      { acc3 with
        durations := acc3.durations ++ [t]
        slowRequests := acc3.slowRequests ++ [(request.url, t)] }
    | none => acc3

/-- Result record of analyzeNetworkPerformance.  The mean is an exact
rational; the source computes it with JS float division. -/
structure NetworkPerformanceAnalysis where
  totalRequests : Nat
  failedRequests : Nat
  averageResponseTime : Rat
  slowestRequests : List (String × Int)
  requestsByStatus : List (String × Nat)
  requestsByType : List (String × Nat)
deriving DecidableEq, Repr

/-- analyzeNetworkPerformance: loop over requests, then sort the
measured entries by descending duration (JS stable sort with comparator
b.duration - a.duration, modelled as a stable insertion sort under the
relation "left duration at least right duration") and keep the top 10,
and compute the mean over only the measured durations (0 when none). -/
def analyzeNetworkPerformance (requests : List NetworkRequest)
    (responses : List NetworkResponse) : NetworkPerformanceAnalysis :=
  let acc := requests.foldl (perfStep (responseMapGet responses)) {}
  let sortedSlow := List.insertionSort
    (fun a b : String × Int => b.2 ≤ a.2) acc.slowRequests
  { totalRequests := requests.length,
    failedRequests := acc.failedCount,
    averageResponseTime :=
      if acc.durations.length > 0 then
        (acc.durations.sum : Rat) / (acc.durations.length : Rat)
      else 0,
    slowestRequests := sortedSlow.take 10,
    requestsByStatus := acc.statusCounts,
    requestsByType := acc.typeCounts }

/-- Modelled from the spec: "the ten requests with the largest encoded
size", which the claim says the aggregate stats return alongside the ten
slowest.  No such component exists in analyzeNetworkPerformance; this
definition is used only to exhibit the C5 counterexample. -/
def specLargestBySize (requests : List NetworkRequest)
    (responses : List NetworkResponse) : List (String × Int) :=
  ((requests.filterMap (fun r =>
    match responseMapGet responses r.requestId with
    | some resp =>
      match resp.encodedDataLength with
      | some sz => some (r.url, sz)
      | none => none
    | none => none)).insertionSort (fun a b => b.2 ≤ a.2)).take 10

/-- Requests for the C5 counterexample. -/
def c5Reqs : List NetworkRequest :=
  [{ requestId := "a", url := "https://e.test/one", method := "GET",
     timestamp := 1 },
   { requestId := "b", url := "https://e.test/two", method := "GET",
     timestamp := 2 }]

/-- First response set: sizes 10 and 99. -/
def c5RespsA : List NetworkResponse :=
  [{ requestId := "a", url := "https://e.test/one", status := 200,
     timestamp := 3, encodedDataLength := some 10 },
   { requestId := "b", url := "https://e.test/two", status := 200,
     timestamp := 4, encodedDataLength := some 99 }]

/-- Second response set: the same responses with the sizes swapped. -/
def c5RespsB : List NetworkResponse :=
  [{ requestId := "a", url := "https://e.test/one", status := 200,
     timestamp := 3, encodedDataLength := some 99 },
   { requestId := "b", url := "https://e.test/two", status := 200,
     timestamp := 4, encodedDataLength := some 10 }]


/-! ## Pattern matcher (src/utils/error-correlation.ts, AdvancedMatcher) -/

/-- Include-pattern combination mode ('any' = OR, 'all' = AND). -/
inductive MatchMode where
  | any
  | all
deriving DecidableEq, Repr

/-- The patterns block of AdvancedSearchOptions.  The source field names
include/exclude are keywords here, hence the Patterns suffix. -/
structure PatternsConfig where
  includePatterns : Option (List String) := none
  excludePatterns : Option (List String) := none
  mode : Option MatchMode := none
deriving Repr

/-- Field-predicate operator of AdvancedSearchOptions.fields. -/
inductive FieldOperator where
  | equals
  | contains
  | startsWith
  | endsWith
  | regex
deriving DecidableEq, Repr

/-- Per-field matching options. -/
structure FieldMatchOptions where
  pattern : Option String := none
  operator : Option FieldOperator := none
  caseSensitive : Option Bool := none
deriving Repr

/-- AdvancedSearchOptions: pattern sets, named patterns and field
predicates (objects modelled as insertion-ordered entry lists). -/
structure AdvancedSearchOptions where
  patterns : Option PatternsConfig := none
  namedPatterns : Option (List (String × String)) := none
  fields : Option (List (String × FieldMatchOptions)) := none
deriving Repr

/-- The string form JS produces for each console message level. -/
def levelToString (l : LogLevel) : String :=
  match l with
  | LogLevel.log => "log"
  | LogLevel.info => "info"
  | LogLevel.warn => "warn"
  | LogLevel.error => "error"
  | LogLevel.debug => "debug"

/-- AdvancedMatcher.getFieldValue on the console message model: a known
field path yields String(value), where a property holding undefined
stringifies to "undefined"; unknown paths yield undefined. -/
def getFieldValue (msg : ConsoleMessage) (path : String) : Option String :=
  match path with
  | "level" => some (levelToString msg.level)
  | "text" => some msg.text
  | "timestamp" => some (toString msg.timestamp)
  | "url" => some (match msg.url with
    | some u => u
    | none => "undefined")
  | "lineNumber" => some (match msg.lineNumber with
    | some n => toString n
    | none => "undefined")
  | "columnNumber" => some (match msg.columnNumber with
    | some n => toString n
    | none => "undefined")
  | _ => none

/-- AdvancedMatcher.matchField.  The regex operator compiles a fresh
expression per call (abstracted as envField pattern caseSensitive,
none when compilation fails, as with the try/catch in the source). -/
def matchField (envField : String → Bool → Option (String → Bool))
    (value : String) (opts : FieldMatchOptions) : Bool :=
  match opts.pattern with
  | none => false
  | some p =>
    if p = "" then false
    else
      let op := opts.operator.getD FieldOperator.contains
      let cs := opts.caseSensitive.getD false
      let compareValue := if cs then value else jsToLower value
      let comparePattern := if cs then p else jsToLower p
      match op with
      | FieldOperator.equals => compareValue == comparePattern
      | FieldOperator.contains => strContains compareValue comparePattern
      | FieldOperator.startsWith =>
        comparePattern.data.isPrefixOf compareValue.data
      | FieldOperator.endsWith =>
        comparePattern.data.isSuffixOf compareValue.data
      | FieldOperator.regex =>
        match envField p cs with
        | some test => test value
        | none => false

/-- Test of one compiled instance pattern against a text: env maps a
pattern source to its compiled test (none when new RegExp threw, in
which case the source skips the pattern).  On the single fresh-matcher
call modelled here a /gi test() and a match() both mean "matches
somewhere"; cross-call lastIndex state is the subject of claim C10. -/
def c6TestPattern (env : String → Option (String → Bool)) (p : String)
    (text : String) : Bool :=
  match env p with
  | some test => test text
  | none => false

/-- Exclude-pattern hit (short-circuit rejection set). -/
def c6ExcludeHit (env : String → Option (String → Bool))
    (opts : AdvancedSearchOptions) (msg : ConsoleMessage) : Bool :=
  match opts.patterns with
  | some pc => (pc.excludePatterns.getD []).any
      (fun p => c6TestPattern env p msg.text)
  | none => false

/-- Number of include patterns that hit. -/
def c6IncludeCount (env : String → Option (String → Bool))
    (opts : AdvancedSearchOptions) (msg : ConsoleMessage) : Nat :=
  match opts.patterns with
  | some pc => ((pc.includePatterns.getD []).filter
      (fun p => c6TestPattern env p msg.text)).length
  | none => 0

/-- The include-mode rejection test of matchConsoleMessage: with an
include list present (even empty, which is JS-truthy), AND mode demands
every pattern hit and OR mode at least one. -/
def c6IncludeFail (env : String → Option (String → Bool))
    (opts : AdvancedSearchOptions) (msg : ConsoleMessage) : Bool :=
  match opts.patterns with
  | some pc =>
    match pc.includePatterns with
    | some inc =>
      let mode := pc.mode.getD MatchMode.any
      let mc := (inc.filter (fun p => c6TestPattern env p msg.text)).length
      (mode == MatchMode.all && decide (mc < inc.length)) ||
        (mode == MatchMode.any && mc == 0)
    | none => false
  | none => false

/-- Number of named patterns that hit. -/
def c6NamedCount (env : String → Option (String → Bool))
    (opts : AdvancedSearchOptions) (msg : ConsoleMessage) : Nat :=
  (((opts.namedPatterns.getD [])).filter
    (fun nv => c6TestPattern env nv.2 msg.text)).length

/-- Number of field predicates that hit (a field participates only when
its stringified value is defined and truthy). -/
def c6FieldCount (envField : String → Bool → Option (String → Bool))
    (opts : AdvancedSearchOptions) (msg : ConsoleMessage) : Nat :=
  ((opts.fields.getD []).filter (fun fv =>
    match getFieldValue msg fv.1 with
    | some v => !(v = "") && matchField envField v fv.2
    | none => false)).length

/-- AdvancedMatcher.matchConsoleMessage, returning the score of a match
(the matches evidence record carries no additional information relevant
to the claims): excluded or include-rejected records yield none, and
otherwise the hits are weighted 10/5/3; a total score of 0 also yields
none. -/
def matchConsoleMessage (env : String → Option (String → Bool))
    (envField : String → Bool → Option (String → Bool))
    (opts : AdvancedSearchOptions) (msg : ConsoleMessage) : Option Nat :=
  if c6ExcludeHit env opts msg then none
  else if c6IncludeFail env opts msg then none
  else if 10 * c6IncludeCount env opts msg + 5 * c6NamedCount env opts msg +
      3 * c6FieldCount envField opts msg > 0 then
    some (10 * c6IncludeCount env opts msg + 5 * c6NamedCount env opts msg +
      3 * c6FieldCount envField opts msg)
  else none

/-- The no-match condition as the claim states it, plus the score-0 case
the code adds: an exclude hit, a zero-hit OR mode, an incomplete AND
mode, or (the amendment) no scoring hit at all. -/
def c6NoMatchSpec (env : String → Option (String → Bool))
    (envField : String → Bool → Option (String → Bool))
    (opts : AdvancedSearchOptions) (msg : ConsoleMessage) : Prop :=
  c6ExcludeHit env opts msg = true ∨
  (∃ pc inc, opts.patterns = some pc ∧ pc.includePatterns = some inc ∧
    ((pc.mode.getD MatchMode.any = MatchMode.any ∧
        c6IncludeCount env opts msg = 0) ∨
      (pc.mode.getD MatchMode.any = MatchMode.all ∧
        c6IncludeCount env opts msg < inc.length))) ∨
  10 * c6IncludeCount env opts msg + 5 * c6NamedCount env opts msg +
    3 * c6FieldCount envField opts msg = 0

/-- C6 counterexample configuration: an empty include list under AND
mode -- vacuously "all patterns matched", no excludes, nothing else
configured. -/
def c6Opts : AdvancedSearchOptions :=
  { patterns := some
      { includePatterns := some []
        mode := some MatchMode.all } }

/-- Message for the C6 counterexample and witness. -/
def c6Msg : ConsoleMessage :=
  { level := LogLevel.error, text := "boom", timestamp := 1 }

/-- Witness configuration for C6: one include pattern that hits. -/
def c6OptsW : AdvancedSearchOptions :=
  { patterns := some { includePatterns := some ["boom"] } }

/-- Witness pattern environment: every pattern compiles to a substring
test, the way a literal regex source behaves. -/
def c6EnvW : String → Option (String → Bool) :=
  fun p => some (fun t => strContains (jsToLower t) (jsToLower p))

/-! ## Security header scan (src/unnamed/part_006, SecurityScanner) -/

/-- The fixed security-header checklist (SecurityScanner.securityHeaders). -/
def securityHeaders : List String :=
  ["Strict-Transport-Security",
   "X-Content-Type-Options",
   "X-Frame-Options",
   "X-XSS-Protection",
   "Content-Security-Policy",
   "Referrer-Policy",
   "Permissions-Policy"]

/-- Drop characters up to and including the first "://" scheme separator. -/
def dropThroughSep : List Char → List Char
  | [] => []
  | ':' :: '/' :: '/' :: rest => rest
  | _ :: rest => dropThroughSep rest

/-- new URL(url).hostname for the http(s) URLs this scanner sees: the
text after "://" up to the first of / ? # : (path, query, fragment or
port), lowercased as the WHATWG URL parser does. -/
def hostnameOf (url : String) : String :=
  jsToLower (String.mk ((dropThroughSep url.data).takeWhile
    (fun c => !(c = '/' || c = '?' || c = '#' || c = ':'))))

/-- The checklist headers absent from a response, by case-insensitive
header-name comparison. -/
def missingSecurityHeaders (response : NetworkResponse) : List String :=
  securityHeaders.filter (fun h =>
    !(response.headers.any (fun p => jsToLower p.1 = jsToLower h)))

/-- A security finding; only the fields the claims observe are kept
(type is a keyword here, hence issueType). -/
structure SecurityIssue where
  id : String
  issueType : String
  severity : String
  domain : String := ""
  missingHeaders : List String := []
  url : String := ""
deriving DecidableEq, Repr

/-- Loop of SecurityScanner.scanSecurityHeaders: per request, skip when
there is no response or it failed; resolve the hostname; skip hostnames
already checked, otherwise mark checked (the source adds to the set
BEFORE the loopback skip); skip loopback; emit one finding when any
checklist header is missing, severity high exactly when
Strict-Transport-Security is among them.  checkedDomains is the Set in
insertion order. -/
def scanSecurityHeadersAux (lookup : String → Option NetworkResponse) :
    List NetworkRequest → List String → List SecurityIssue
  | [], _ => []
  | request :: rest, checkedDomains =>
    match lookup request.requestId with
    | none => scanSecurityHeadersAux lookup rest checkedDomains
    | some response =>
      if response.status ≥ 400 then
        scanSecurityHeadersAux lookup rest checkedDomains
      else if hostnameOf request.url ∈ checkedDomains then
        scanSecurityHeadersAux lookup rest checkedDomains
      else if hostnameOf request.url = "localhost" ∨
          hostnameOf request.url = "127.0.0.1" then
        scanSecurityHeadersAux lookup rest
          (checkedDomains ++ [hostnameOf request.url])
      else if (missingSecurityHeaders response).length > 0 then
        { id := "missing-headers-" ++ hostnameOf request.url
          issueType := "missing-headers"
          severity :=
            if (missingSecurityHeaders response).contains
                "Strict-Transport-Security" then "high" else "medium"
          domain := hostnameOf request.url
          missingHeaders := missingSecurityHeaders response
          url := request.url } ::
          scanSecurityHeadersAux lookup rest
            (checkedDomains ++ [hostnameOf request.url])
      else
        scanSecurityHeadersAux lookup rest
          (checkedDomains ++ [hostnameOf request.url])

/-- SecurityScanner.scanSecurityHeaders: scan every request against the
response map, starting from an empty checked-domain set. -/
def scanSecurityHeaders (requests : List NetworkRequest)
    (lookup : String → Option NetworkResponse) : List SecurityIssue :=
  scanSecurityHeadersAux lookup requests []

/-- C9 counterexample: first request to site.test, answered with every
checklist header present. -/
def c9Req1 : NetworkRequest :=
  { requestId := "1", url := "https://site.test/a", method := "GET"
    timestamp := 0 }

/-- Its response: status 200 and all seven checklist headers. -/
def c9Resp1 : NetworkResponse :=
  { requestId := "1", url := "https://site.test/a", status := 200
    headers := [("Strict-Transport-Security", "max-age=63072000"),
      ("X-Content-Type-Options", "nosniff"),
      ("X-Frame-Options", "DENY"),
      ("X-XSS-Protection", "0"),
      ("Content-Security-Policy", "default-src self"),
      ("Referrer-Policy", "no-referrer"),
      ("Permissions-Policy", "geolocation=()")]
    timestamp := 1 }

/-- C9 counterexample: second request to the same host. -/
def c9Req2 : NetworkRequest :=
  { requestId := "2", url := "https://site.test/b", method := "GET"
    timestamp := 2 }

/-- Its response: status 200 with no headers at all. -/
def c9Resp2 : NetworkResponse :=
  { requestId := "2", url := "https://site.test/b", status := 200
    timestamp := 3 }

/-- The counterexample snapshot. -/
def c9Requests : List NetworkRequest := [c9Req1, c9Req2]

/-- The counterexample responses (keyed by request id via the map). -/
def c9Resps : List NetworkResponse := [c9Resp1, c9Resp2]

/-- C9 witness: one request to site.test with a headerless response. -/
def c9ReqW : NetworkRequest :=
  { requestId := "w", url := "https://site.test/", method := "GET"
    timestamp := 0 }

/-- The witness response. -/
def c9RespW : NetworkResponse :=
  { requestId := "w", url := "https://site.test/", status := 200
    timestamp := 1 }

/-- Witness request snapshot. -/
def c9ReqsW : List NetworkRequest := [c9ReqW]

/-- Witness response snapshot. -/
def c9RespsW : List NetworkResponse := [c9RespW]

/-- The finding the witness snapshot produces. -/
def c9IssueW : SecurityIssue :=
  { id := "missing-headers-site.test", issueType := "missing-headers"
    severity := "high", domain := "site.test"
    missingHeaders := securityHeaders, url := "https://site.test/" }

/-! ## Correlation engine (src/utils/error-correlation.ts, ErrorCorrelator) -/

/-- Correlation time window: the hardcoded TIME_WINDOW = 5000ms. -/
def TIME_WINDOW : Int := 5000

/-- Correlation severity. -/
inductive CorrSeverity where
  | high
  | medium
  | low
deriving DecidableEq, Repr

/-- Correlation kind (the console-console variant is never produced). -/
inductive CorrType where
  | consoleConsole
  | consoleNetwork
  | repeatedError
  | cascade
deriving DecidableEq, Repr

/-- ErrorCorrelation result record.  The summary and suggestions fields
are presentation strings assembled from the same data and are not
modelled; rootCause is flattened into three optional fields. -/
structure ErrorCorrelation where
  id : String
  corrType : CorrType
  severity : CorrSeverity
  consoleMessages : List ConsoleMessage := []
  networkRequests : List (NetworkRequest × Option NetworkResponse) := []
  rootCauseType : Option String := none
  rootCauseMessage : Option String := none
  rootCauseSource : Option String := none
  timeSpanStart : Int := 0
  timeSpanEnd : Int := 0
deriving DecidableEq, Repr

/-- JS \w word characters (ASCII). -/
def isWordChar (c : Char) : Bool :=
  c.isAlphanum || c = '_'

/-- Maximal word-character runs of a character list, accumulating the
current run in reverse.  Splitting on /\W+/ produces the same pieces up
to empty strings, which the keyword length filter removes anyway. -/
def wordRunsAux (cur : List Char) : List Char → List (List Char)
  | [] => if cur.isEmpty then [] else [cur.reverse]
  | c :: rest =>
    if isWordChar c then wordRunsAux (c :: cur) rest
    else if cur.isEmpty then wordRunsAux [] rest
    else cur.reverse :: wordRunsAux [] rest

/-- Stop words excluded from keywords. -/
def stopWords : List String :=
  ["the", "is", "at", "in", "on", "and", "or", "to", "a", "an"]

/-- ErrorCorrelator.extractKeywords: lowercase, split on non-word runs,
keep words longer than two characters that are not stop words. -/
def extractKeywords (text : String) : List String :=
  ((wordRunsAux [] (jsToLower text).data).map String.mk).filter
    (fun w => w.length > 2 && !stopWords.contains w)

/-- ErrorCorrelator.isPotentiallyCaused: same (truthy) source url, or
the second text contains a keyword of the first. -/
def isPotentiallyCaused (first second : ConsoleMessage) : Bool :=
  (match first.url with
   | some u => !(u = "") && (second.url == some u)
   | none => false) ||
  (extractKeywords first.text).any
    (fun k => strContains (jsToLower second.text) k)

/-- The cascade absorbed from a seed: scan forward while inside the time
window and keep the messages potentially caused by the seed, seed
first. -/
def cascadeFrom (seed : ConsoleMessage) (rest : List ConsoleMessage) :
    List ConsoleMessage :=
  seed :: (rest.takeWhile
    (fun m => m.timestamp - seed.timestamp ≤ TIME_WINDOW)).filter
      (fun m => isPotentiallyCaused seed m)

/-- The outer loop of findCascadingErrors over the time-sorted errors;
the first Nat is structural fuel (each iteration consumes at least one
list element, so the list length is enough fuel), the second is the loop
index used in the finding id.  After a reported cascade the index
advances by the cascade size and the next (size - 1) errors are skipped
as seeds, regardless of whether they were members. -/
def cascadesAuxF : Nat → Nat → List ConsoleMessage →
    List (Nat × List ConsoleMessage)
  | _, _, [] => []
  | 0, _, _ :: _ => []
  | fuel + 1, i, m :: rest =>
    let cascade := cascadeFrom m rest
    if cascade.length > 2 then
      (i, cascade) :: cascadesAuxF fuel (i + cascade.length)
        (rest.drop (cascade.length - 1))
    else
      cascadesAuxF fuel (i + 1) rest

/-- The cascade loop started with enough fuel. -/
def cascadesAux (i : Nat) (l : List ConsoleMessage) :
    List (Nat × List ConsoleMessage) :=
  cascadesAuxF l.length i l

/-- ErrorCorrelator.findCascadingErrors: filter errors, sort by
timestamp (JS stable sort), run the cascade loop, and build a finding
for every cascade of more than two messages. -/
def findCascadingErrors (messages : List ConsoleMessage) :
    List ErrorCorrelation :=
  let errorMessages := messages.filter (fun m => m.level == LogLevel.error)
  let sorted := List.insertionSort
    (fun a b : ConsoleMessage => a.timestamp ≤ b.timestamp) errorMessages
  (cascadesAux 0 sorted).map (fun p =>
    { id := "cascade-" ++ toString p.1,
      corrType := CorrType.cascade,
      severity := if p.2.length > 5 then CorrSeverity.high
        else CorrSeverity.medium,
      consoleMessages := p.2,
      timeSpanStart := (p.2.head?.map (fun m => m.timestamp)).getD 0,
      timeSpanEnd := (p.2.getLast?.map (fun m => m.timestamp)).getD 0 })

/-- One character of JS \s (ASCII whitespace). -/
def isJsSpace (c : Char) : Bool :=
  c.isWhitespace

/-- Hex digit of the /\b[a-f0-9]{8,}\b/gi class (case-insensitive). -/
def isHexChar (c : Char) : Bool :=
  c.isDigit || ('a' ≤ c.toLower && c.toLower ≤ 'f')

/-- replace(/\b\d+\b/g, 'NUM'): scan with the previous original
character as boundary context; a maximal digit run bounded by word
boundaries is replaced, any other digit run is copied (no position
inside a run can start a match since its left neighbour is a digit). -/
def replaceNumRunsF : Nat → Option Char → List Char → List Char
  | _, _, [] => []
  | 0, _, l => l
  | fuel + 1, prev, c :: rest =>
    if c.isDigit && (match prev with
        | some p => !isWordChar p
        | none => true) then
      let run := c :: rest.takeWhile Char.isDigit
      let rest2 := rest.dropWhile Char.isDigit
      let last := run.getLast (by simp [run])
      let nextOk := match rest2 with
        | [] => true
        | c2 :: _ => !isWordChar c2
      if nextOk then ("NUM".data ++ replaceNumRunsF fuel (some last) rest2)
      else (run ++ replaceNumRunsF fuel (some last) rest2)
    else c :: replaceNumRunsF fuel (some c) rest

/-- replace of digit runs with enough fuel. -/
def replaceNumRuns (cs : List Char) : List Char :=
  replaceNumRunsF cs.length none cs

/-- replace(/\b[a-f0-9]{8,}\b/gi, 'ID'): a maximal hex run of length at
least 8 bounded by word boundaries is replaced; shorter or unbounded
runs are copied whole (no interior position can start a match). -/
def replaceHexIdsF : Nat → Option Char → List Char → List Char
  | _, _, [] => []
  | 0, _, l => l
  | fuel + 1, prev, c :: rest =>
    if isHexChar c && (match prev with
        | some p => !isWordChar p
        | none => true) then
      let run := c :: rest.takeWhile isHexChar
      let rest2 := rest.dropWhile isHexChar
      let last := run.getLast (by simp [run])
      let nextOk := match rest2 with
        | [] => true
        | c2 :: _ => !isWordChar c2
      if run.length ≥ 8 && nextOk then
        ("ID".data ++ replaceHexIdsF fuel (some last) rest2)
      else (run ++ replaceHexIdsF fuel (some last) rest2)
    else c :: replaceHexIdsF fuel (some c) rest

/-- replace of hex/id tokens with enough fuel. -/
def replaceHexIds (cs : List Char) : List Char :=
  replaceHexIdsF cs.length none cs

/-- replace(/https?:\/\/[^\s]+/g, 'URL'): a scheme marker followed by at
least one non-space character is replaced together with the maximal
non-space run after it. -/
def replaceUrlsF : Nat → List Char → List Char
  | _, [] => []
  | 0, l => l
  | fuel + 1, c :: rest =>
    if "https://".data.isPrefixOf (c :: rest) then
      let after := (c :: rest).drop 8
      let tail := after.takeWhile (fun c2 => !isJsSpace c2)
      if tail.isEmpty then c :: replaceUrlsF fuel rest
      else ("URL".data ++
        replaceUrlsF fuel (after.dropWhile (fun c2 => !isJsSpace c2)))
    else if "http://".data.isPrefixOf (c :: rest) then
      let after := (c :: rest).drop 7
      let tail := after.takeWhile (fun c2 => !isJsSpace c2)
      if tail.isEmpty then c :: replaceUrlsF fuel rest
      else ("URL".data ++
        replaceUrlsF fuel (after.dropWhile (fun c2 => !isJsSpace c2)))
    else c :: replaceUrlsF fuel rest

/-- replace of urls with enough fuel. -/
def replaceUrls (cs : List Char) : List Char :=
  replaceUrlsF cs.length cs

/-- JS String.trim (ASCII whitespace). -/
def jsTrim (s : String) : String :=
  String.mk (((s.data.dropWhile Char.isWhitespace).reverse.dropWhile
    Char.isWhitespace).reverse)

/-- The normalize closure of ErrorCorrelator.areSimilarErrors: replace
digit runs, hex/id tokens and urls by placeholders, lowercase (the
placeholders included), trim. -/
def normalizeErrorText (text : String) : String :=
  jsTrim (jsToLower (String.mk (replaceUrls (replaceHexIds
    (replaceNumRuns text.data)))))

/-- ErrorCorrelator.areSimilarErrors: equal normalized texts, or keyword
overlap ratio at least the 0.8 threshold.  The JS float comparison
intersection/min >= 0.8 (NaN, hence false, when both keyword lists are
empty) is modelled exactly by the rational inequality below: for list
lengths far below 2^50 the two roundings of the division cannot bridge
the gap to the next representable value. -/
def areSimilarErrors (text1 text2 : String) : Bool :=
  if normalizeErrorText text1 == normalizeErrorText text2 then true
  else
    let keywords1 := extractKeywords text1
    let keywords2 := extractKeywords text2
    let intersection := keywords1.filter (fun k => keywords2.contains k)
    let m := min keywords1.length keywords2.length
    decide (0 < m) && decide (5 * intersection.length ≥ 4 * m)

/-- One step of the findRepeatedErrors grouping loop: join the first
existing group (in Map insertion order) whose first member is similar,
otherwise open a new group at the end. -/
def addToGroups (groups : List (List ConsoleMessage))
    (e : ConsoleMessage) : List (List ConsoleMessage) :=
  match groups with
  | [] => [[e]]
  | g :: rest =>
    match g with
    | g0 :: _ =>
      if areSimilarErrors e.text g0.text then (g ++ [e]) :: rest
      else g :: addToGroups rest e
    | [] => g :: addToGroups rest e

/-- The error groups built by findRepeatedErrors, in insertion order. -/
def buildErrorGroups (errors : List ConsoleMessage) :
    List (List ConsoleMessage) :=
  errors.foldl addToGroups []

/-- ErrorCorrelator.findRepeatedErrors: group similar errors, keep
groups of at least three, severity high when the occurrence rate
exceeds one per second (frequency = (len/timeSpan)*1000 > 1, i.e.
len*1000 > timeSpan, with frequency 0 when the span is not positive). -/
def findRepeatedErrors (messages : List ConsoleMessage) :
    List ErrorCorrelation :=
  let errorMessages := messages.filter (fun m => m.level == LogLevel.error)
  (buildErrorGroups errorMessages).filterMap (fun group =>
    if group.length ≥ 3 then
      let firstTs := (group.head?.map (fun m => m.timestamp)).getD 0
      let lastTs := (group.getLast?.map (fun m => m.timestamp)).getD 0
      let timeSpan := lastTs - firstTs
      let rateHigh := 0 < timeSpan ∧ (group.length : Int) * 1000 > timeSpan
      some
        { id := "repeated-" ++ toString firstTs,
          corrType := CorrType.repeatedError,
          severity := if rateHigh then CorrSeverity.high
            else CorrSeverity.medium,
          consoleMessages := group,
          timeSpanStart := firstTs,
          timeSpanEnd := lastTs }
    else none)

/-- Case-insensitive substring test (a fresh /pat/i regex on a literal
pattern). -/
def strContainsCI (s pat : String) : Bool :=
  strContains (jsToLower s) (jsToLower pat)

/-- Suffix following the first occurrence of pat, if any. -/
def suffixAfterFirst (pat : List Char) : List Char → Option (List Char)
  | [] => if pat.isEmpty then some [] else none
  | c :: rest =>
    if pat.isPrefixOf (c :: rest) then some ((c :: rest).drop pat.length)
    else suffixAfterFirst pat rest

/-- Test of /a.*b/i: some line (JS dot excludes line terminators) has an
occurrence of a followed later by b. -/
def dotStarTest (s a b : String) : Bool :=
  ((jsToLower s).data.splitOnP
    (fun c => c = Char.ofNat 10 || c = Char.ofNat 13)).any
    (fun line =>
      match suffixAfterFirst (jsToLower a).data line with
      | some rest => rest.tails.any
          (fun t => ((jsToLower b).data).isPrefixOf t)
      | none => false)

/-- ErrorCorrelator.isNetworkErrorMessage: the fixed network-failure
vocabulary. -/
def isNetworkErrorMessage (text : String) : Bool :=
  strContainsCI text "failed to fetch" ||
  strContainsCI text "network error" ||
  strContainsCI text "ERR_NETWORK" ||
  strContainsCI text "ERR_INTERNET_DISCONNECTED" ||
  strContainsCI text "ERR_NAME_NOT_RESOLVED" ||
  strContainsCI text "CORS" ||
  dotStarTest text "xhr" "failed" ||
  dotStarTest text "fetch" "failed"

/-- ErrorCorrelator.correlateNetworkErrors: for every request whose
response has status at least 400, collect the console errors within the
time window whose text mentions the url, the status code, or matches the
network-failure vocabulary; a nonempty set yields a correlation of
severity high when status is at least 500, else medium. -/
def correlateNetworkErrors (messages : List ConsoleMessage)
    (requests : List NetworkRequest)
    (lookup : String → Option NetworkResponse) : List ErrorCorrelation :=
  let errorMessages := messages.filter (fun m => m.level == LogLevel.error)
  requests.filterMap (fun request =>
    match lookup request.requestId with
    | none => none
    | some response =>
      if response.status < 400 then none
      else
        let relatedErrors := errorMessages.filter (fun msg =>
          (msg.timestamp - response.timestamp).natAbs ≤ 5000 &&
          (strContains msg.text request.url ||
            strContains msg.text (toString response.status) ||
            isNetworkErrorMessage msg.text))
        if relatedErrors.length > 0 then
          some
            { id := "net-error-" ++ request.requestId,
              corrType := CorrType.consoleNetwork,
              severity := if response.status ≥ 500 then CorrSeverity.high
                else CorrSeverity.medium,
              consoleMessages := relatedErrors,
              networkRequests := [(request, some response)],
              timeSpanStart := (relatedErrors.map
                (fun e => e.timestamp)).foldl min request.timestamp,
              timeSpanEnd := (relatedErrors.map
                (fun e => e.timestamp)).foldl max response.timestamp }
        else none)

/-- ErrorCorrelator.classifyError: fixed signature table. -/
def classifyError (text : String) : String :=
  if strContainsCI text "TypeError" then "TypeError"
  else if strContainsCI text "ReferenceError" then "ReferenceError"
  else if strContainsCI text "SyntaxError" then "SyntaxError"
  else if strContainsCI text "RangeError" then "RangeError"
  else if strContainsCI text "URIError" then "URIError"
  else if strContainsCI text "SecurityError" then "SecurityError"
  else if strContainsCI text "Network" || strContainsCI text "fetch" ||
      strContainsCI text "xhr" then "NetworkError"
  else "UnknownError"

/-- ErrorCorrelator.identifyRootCauses: attribute the root cause of a
cascade to its first (seed) error and of a console-network correlation
to the failing request. -/
def identifyRootCauses (correlations : List ErrorCorrelation) :
    List ErrorCorrelation :=
  correlations.map (fun c =>
    match c.corrType with
    | CorrType.cascade =>
      match c.consoleMessages with
      | first :: _ =>
        { c with
          rootCauseType := some (classifyError first.text)
          rootCauseMessage := some first.text
          rootCauseSource := some (match first.url with
            | some u => if u = "" then "unknown" else u
            | none => "unknown") }
      | [] => c
    | CorrType.consoleNetwork =>
      match c.networkRequests with
      | (req, resp) :: _ =>
        { c with
          rootCauseType := some "network"
          rootCauseMessage := some ("HTTP " ++
            (match resp with
             | some r => toString r.status
             | none => "undefined") ++ " on " ++ req.method ++ " " ++
            req.url)
          rootCauseSource := some req.url }
      | [] => c
    | _ => c)

/-- ErrorCorrelator.correlateErrors: the three detectors concatenated,
then the root-cause pass. -/
def correlateErrors (messages : List ConsoleMessage)
    (requests : List NetworkRequest)
    (responses : List NetworkResponse) : List ErrorCorrelation :=
  identifyRootCauses
    (correlateNetworkErrors messages requests (responseMapGet responses) ++
      findCascadingErrors messages ++
      findRepeatedErrors messages)

/-- Numeric order of correlation severities used by the error_correlate
handler filter. -/
def severityOrder (s : CorrSeverity) : Nat :=
  match s with
  | CorrSeverity.low => 0
  | CorrSeverity.medium => 1
  | CorrSeverity.high => 2
/-! ## Sensitive-data scan (src/unnamed/part_006, SecurityScanner):
regex atoms of the eight sensitivePatterns literals, with the stateful
lastIndex semantics of a /g-flagged RegExp instance held on the
scanner. -/

/-- The apostrophe character (the second quote of the class ["']). -/
def singleQuote : Char := Char.ofNat 39

/-- The separator class [\s=:]. -/
def isSepChar (c : Char) : Bool :=
  isJsSpace c || c = '=' || c = ':'

/-- The quote class ["']. -/
def isQuoteChar (c : Char) : Bool :=
  c = '"' || c = singleQuote

/-- The value class [^"'\s]. -/
def isValueChar (c : Char) : Bool :=
  !(isQuoteChar c || isJsSpace c)

/-- The key/token/secret value class [a-z0-9\-_] (the subject is
already lowercased under the /i flag). -/
def isKeyChar (c : Char) : Bool :=
  ('a' ≤ c && c ≤ 'z') || c.isDigit || c = '-' || c = '_'

/-- The class [_-]. -/
def isUnderDash (c : Char) : Bool :=
  c = '_' || c = '-'

/-- The class [\s-]. -/
def isSpaceDash (c : Char) : Bool :=
  isJsSpace c || c = '-'

/-- The email local-part class [A-Za-z0-9._%+-]. -/
def isEmailLocalChar (c : Char) : Bool :=
  c.isAlpha || c.isDigit || c = '.' || c = '_' || c = '%' || c = '+' ||
    c = '-'

/-- The email domain class [A-Za-z0-9.-]. -/
def isDomainChar (c : Char) : Bool :=
  c.isAlpha || c.isDigit || c = '.' || c = '-'

/-- The TLD class [A-Z|a-z]: letters and, literally, the pipe. -/
def isTldChar (c : Char) : Bool :=
  c.isAlpha || c = '|'

/-- Regex atoms covering the constructs the eight patterns use: a
literal, a single-character class, a greedy at-least-m repetition of a
class, a greedy optional class character, and a word boundary \b. -/
inductive RE where
  | lit : List Char → RE
  | cls : (Char → Bool) → RE
  | repC : (Char → Bool) → Nat → RE
  | optC : (Char → Bool) → RE
  | wb : RE

/-- Ways one atom can consume a prefix of cs, in backtracking priority
order (longest first for greedy repetition, consume-first for the
greedy option); each outcome carries the last consumed character, the
boundary context for \b. -/
def atomMatches : RE → Option Char → List Char → List (Option Char × List Char)
  | RE.lit l, prev, cs =>
    if l.isPrefixOf cs then
      [(match l.getLast? with
        | some c => some c
        | none => prev, cs.drop l.length)]
    else []
  | RE.cls p, _, cs =>
    match cs with
    | c :: rest => if p c then [(some c, rest)] else []
    | [] => []
  | RE.repC p m, prev, cs =>
    let n := (cs.takeWhile p).length
    if n < m then []
    else
      ((List.range (n + 1 - m)).map (fun j => n - j)).map
        (fun k => (if k = 0 then prev else (cs.take k).getLast?, cs.drop k))
  | RE.optC p, prev, cs =>
    match cs with
    | c :: rest => if p c then [(some c, rest), (prev, cs)] else [(prev, cs)]
    | [] => [(prev, cs)]
  | RE.wb, prev, cs =>
    let before := match prev with
      | some c => isWordChar c
      | none => false
    let after := match cs with
      | c :: _ => isWordChar c
      | [] => false
    if before != after then [(prev, cs)] else []

/-- All ways a sequence of atoms matches a prefix of cs, in priority
order: the head of the result is the match the backtracking engine
commits to. -/
def seqMatch : List RE → Option Char → List Char → List (Option Char × List Char)
  | [], prev, cs => [(prev, cs)]
  | r :: rs, prev, cs =>
    (atomMatches r prev cs).flatMap (fun pc => seqMatch rs pc.1 pc.2)

/-- Leftmost match at a position ≥ i: returns (start, end) in absolute
positions; prev is the character before position i for \b context. -/
def findFrom (res : List RE) : Nat → Option Char → List Char → Option (Nat × Nat)
  | i, prev, cs =>
    match seqMatch res prev cs with
    | pc :: _ => some (i, i + (cs.length - pc.2.length))
    | [] =>
      match cs with
      | [] => none
      | c :: rest => findFrom res (i + 1) (some c) rest

/-- RegExp.prototype.test on a /g-flagged instance: the search starts
at the instance's lastIndex (past the subject end means failure and a
reset); success advances lastIndex to the match end, failure resets it
to 0.  The /i flag is modelled by lowercasing the subject (every
literal of the /i patterns is lowercase and their classes are closed
under case folding). -/
def jsGlobalTest (ci : Bool) (res : List RE) (text : String)
    (lastIndex : Nat) : Bool × Nat :=
  let cs := (if ci then jsToLower text else text).data
  if lastIndex > cs.length then (false, 0)
  else
    match findFrom res lastIndex ((cs.take lastIndex).getLast?)
        (cs.drop lastIndex) with
    | some se => (true, se.2)
    | none => (false, 0)

/-- A digit atom \d. -/
def reDigit : RE := RE.cls Char.isDigit

/-- The credit-card group (?:\d{4}[\s-]?). -/
def creditGroup : List RE :=
  [reDigit, reDigit, reDigit, reDigit, RE.optC isSpaceDash]

/-- SecurityScanner.sensitivePatterns: (type, /i flag, atoms), in
source order.  Capture groups do not affect test() and are dropped. -/
def sensitivePatterns : List (String × Bool × List RE) :=
  [("password",
    true,
    [RE.lit "password".data, RE.repC isSepChar 1, RE.optC isQuoteChar,
     RE.repC isValueChar 1]),
   ("api_key",
    true,
    [RE.lit "api".data, RE.optC isUnderDash, RE.lit "key".data,
     RE.repC isSepChar 1, RE.optC isQuoteChar, RE.repC isKeyChar 1]),
   ("token",
    true,
    [RE.lit "token".data, RE.repC isSepChar 1, RE.optC isQuoteChar,
     RE.repC isKeyChar 1]),
   ("secret",
    true,
    [RE.lit "secret".data, RE.repC isSepChar 1, RE.optC isQuoteChar,
     RE.repC isKeyChar 1]),
   ("private_key",
    true,
    [RE.lit "private".data, RE.optC isUnderDash, RE.lit "key".data,
     RE.repC isSepChar 1, RE.optC isQuoteChar, RE.repC isKeyChar 1]),
   ("email",
    false,
    [RE.wb, RE.repC isEmailLocalChar 1, RE.lit "@".data,
     RE.repC isDomainChar 1, RE.lit ".".data, RE.repC isTldChar 2,
     RE.wb]),
   ("credit_card",
    false,
    [RE.wb] ++ creditGroup ++ creditGroup ++ creditGroup ++
      [reDigit, reDigit, reDigit, reDigit, RE.wb]),
   ("ssn",
    false,
    [RE.wb, reDigit, reDigit, reDigit, RE.lit "-".data, reDigit,
     reDigit, RE.lit "-".data, reDigit, reDigit, reDigit, reDigit,
     RE.wb])]

/-- SecurityScanner.containsSensitiveHeaders. -/
def containsSensitiveHeaders (headers : List (String × String)) : Bool :=
  headers.any (fun h =>
    (["authorization", "cookie", "x-api-key",
      "x-auth-token"].contains (jsToLower h.1)) && h.2.length > 0)

/-- SecurityScanner.containsSensitiveData: Array.some over the
patterns, short-circuiting on the first hit; every test mutates that
pattern's lastIndex, so the call returns the hit flag plus the updated
per-pattern state (patterns paired with their lastIndex). -/
def containsSensitiveDataSt (text : String) :
    List ((String × Bool × List RE) × Nat) → Bool × List Nat
  | [] => (false, [])
  | (p, li) :: rest =>
    let r := jsGlobalTest p.2.1 p.2.2 text li
    if r.1 then (true, r.2 :: rest.map (fun q => q.2))
    else
      let t := containsSensitiveDataSt text rest
      (t.1, r.2 :: t.2)

/-- The insecure-transmission finding for a request. -/
def insecureIssue (request : NetworkRequest) : SecurityIssue :=
  { id := "insecure-transmission-" ++ request.requestId
    issueType := "insecure-transmission", severity := "critical"
    url := request.url }

/-- The URL loop body of scanNetworkSecurity: every pattern is tested
against the request URL (no short circuit -- one finding per hitting
pattern type), threading each pattern's lastIndex. -/
def scanUrlPatterns (request : NetworkRequest) :
    List ((String × Bool × List RE) × Nat) → List SecurityIssue × List Nat
  | [] => ([], [])
  | (p, li) :: rest =>
    let r := jsGlobalTest p.2.1 p.2.2 request.url li
    let t := scanUrlPatterns request rest
    (if r.1 then
      ({ id := "url-sensitive-" ++ request.requestId ++ "-" ++ p.1
         issueType := "sensitive-data", severity := "high"
         url := request.url } :: t.1)
    else t.1, r.2 :: t.2)

/-- SecurityScanner.scanNetworkSecurity over the request list,
threading the scanner's per-pattern lastIndex state: the URL-pattern
loop, then the insecure-transmission branch whose JS guard
(postData && containsSensitiveData(postData) ||
containsSensitiveHeaders(headers)) short-circuits, touching pattern
state only when the URL is plain http off localhost (startsWith and
includes spelled as list prefix/infix tests) and postData is truthy. -/
def scanNetworkSecurityAux :
    List NetworkRequest → List Nat → List SecurityIssue × List Nat
  | [], st => ([], st)
  | request :: rest, st =>
    let u := scanUrlPatterns request (sensitivePatterns.zip st)
    let tx :=
      if "http://".data.isPrefixOf request.url.data &&
          !(strContains request.url "localhost") then
        match request.postData with
        | some pd =>
          if pd = "" then
            ((if containsSensitiveHeaders request.headers then
                [insecureIssue request]
              else []), u.2)
          else
            let c := containsSensitiveDataSt pd
              (sensitivePatterns.zip u.2)
            if c.1 then ([insecureIssue request], c.2)
            else
              ((if containsSensitiveHeaders request.headers then
                  [insecureIssue request]
                else []), c.2)
        | none =>
          ((if containsSensitiveHeaders request.headers then
              [insecureIssue request]
            else []), u.2)
      else ([], u.2)
    let t := scanNetworkSecurityAux rest tx.2
    (u.1 ++ tx.1 ++ t.1, t.2)

/-- scanNetworkSecurity from a given scanner state, returning the
issues and the state left on the scanner instance. -/
def scanNetworkSecurity (requests : List NetworkRequest)
    (st : List Nat) : List SecurityIssue × List Nat :=
  scanNetworkSecurityAux requests st

/-- The lastIndex state of a freshly constructed SecurityScanner. -/
def freshScannerState : List Nat :=
  sensitivePatterns.map (fun _ => 0)

/-- The C10 failing URL: a password in the query string. -/
def c10Url : String := "https://x/?password=p1"

/-- First request of the C10 failing input. -/
def c10Req1 : NetworkRequest :=
  { requestId := "1", url := c10Url, method := "GET", timestamp := 0 }

/-- Second request of the C10 failing input: identical URL. -/
def c10Req2 : NetworkRequest :=
  { requestId := "2", url := c10Url, method := "GET", timestamp := 1 }

/-! ## Tool dispatch layer (src/index.ts) and BrowserManager session state -/

/-- In-memory state of the BrowserManager singleton: connected tab ids
(the CDP client objects they map to are I/O handles, out of scope) and
the three per-tab telemetry buffers. -/
structure ManagerState where
  connections : List String
  consoleMessages : List (String × List ConsoleMessage)
  networkRequests : List (String × List (String × NetworkRequest))
  networkResponses : List (String × List (String × NetworkResponse))
deriving DecidableEq, Repr

/-- BrowserManager.isConnected. -/
def isConnected (st : ManagerState) (tabId : String) : Bool :=
  st.connections.contains tabId

/-- BrowserManager.getConsoleMessages: the tab buffer or []. -/
def getConsoleMessages (st : ManagerState) (tabId : String) :
    List ConsoleMessage :=
  (jsMapGet st.consoleMessages tabId).getD []

/-- BrowserManager.getNetworkRequests: Array.from(map.values()) or []. -/
def getNetworkRequests (st : ManagerState) (tabId : String) :
    List NetworkRequest :=
  match jsMapGet st.networkRequests tabId with
  | some m => m.map Prod.snd
  | none => []

/-- BrowserManager.getNetworkResponses. -/
def getNetworkResponses (st : ManagerState) (tabId : String) :
    List NetworkResponse :=
  match jsMapGet st.networkResponses tabId with
  | some m => m.map Prod.snd
  | none => []

/-- BrowserManager.disconnectTab: when the tab has a client, close it
and delete the connection entry and all three buffers; otherwise do
nothing. -/
def disconnectTab (st : ManagerState) (tabId : String) : ManagerState :=
  if st.connections.contains tabId then
    { connections := st.connections.erase tabId
      consoleMessages := jsMapDelete st.consoleMessages tabId
      networkRequests := jsMapDelete st.networkRequests tabId
      networkResponses := jsMapDelete st.networkResponses tabId }
  else st

/-- Error message thrown by every tool handler for an unknown tab: the
SessionNotFound surface of the system. -/
def notConnectedMsg (tabId : String) : String :=
  "Not connected to tab " ++ tabId ++ ". Use browser_connect first."

/-- Arguments of the console_search tool accepted by the handler in
src/index.ts (it forwards only pattern, regex, level and limit). -/
structure ConsoleSearchArgs where
  pattern : Option String := none
  regex : Option Bool := none
  level : Option (List LogLevel) := none
  limit : Option Int := none

/-- console_search handler: guard on isConnected, then run
searchConsoleMessages with the caller limit defaulted to 100.  Returns
(totalMessages, matchedMessages, messages). -/
def consoleSearchHandler (regexTest : String → Bool → String → Bool)
    (st : ManagerState) (tabId : String) (args : ConsoleSearchArgs) :
    Except String (Nat × Nat × List ConsoleMessage) :=
  if !(isConnected st tabId) then
    Except.error (notConnectedMsg tabId)
  else
    let messages := getConsoleMessages st tabId
    let filtered := searchConsoleMessages regexTest messages
      { pattern := args.pattern, regex := args.regex, level := args.level,
        limit := some (args.limit.getD 100) }
    Except.ok (messages.length, filtered.length, filtered)

/-- Arguments of the network_analyze tool forwarded by the handler. -/
structure NetworkAnalyzeArgs where
  urlPattern : Option String := none
  method : Option (List String) := none
  statusCode : Option (List Nat) := none
  statusRange : Option (Nat × Nat) := none
  minDuration : Option Int := none
  limit : Option Int := none

/-- network_analyze handler: guard, then searchNetworkRequests with
limit defaulted to 100 (maxDuration, resourceType and the time range
are not forwarded by this tool). -/
def networkAnalyzeHandler (urlTest : String → String → Bool)
    (st : ManagerState) (tabId : String) (args : NetworkAnalyzeArgs) :
    Except String
      (Nat × Nat × List (NetworkRequest × Option NetworkResponse)) :=
  if !(isConnected st tabId) then
    Except.error (notConnectedMsg tabId)
  else
    let requests := getNetworkRequests st tabId
    let responses := getNetworkResponses st tabId
    let results := searchNetworkRequests urlTest requests responses
      { urlPattern := args.urlPattern, method := args.method,
        statusCode := args.statusCode, statusRange := args.statusRange,
        minDuration := args.minDuration,
        limit := some (args.limit.getD 100) }
    Except.ok (requests.length, results.length, results)

/-- network_performance handler: guard, then analyzeNetworkPerformance
over the tab buffers. -/
def networkPerformanceHandler (st : ManagerState) (tabId : String) :
    Except String NetworkPerformanceAnalysis :=
  if !(isConnected st tabId) then
    Except.error (notConnectedMsg tabId)
  else
    Except.ok (analyzeNetworkPerformance (getNetworkRequests st tabId)
      (getNetworkResponses st tabId))


/-- Witness inputs for C4: one request with a measured 50ms response. -/
def c4ReqsW : List NetworkRequest :=
  [{ requestId := "a", url := "https://e.test/x", method := "GET",
     timestamp := 1 }]

/-- Witness responses for C4. -/
def c4RespsW : List NetworkResponse :=
  [{ requestId := "a", url := "https://e.test/x", status := 200,
     timestamp := 2, responseTime := some 50 }]

/-- Witness options for C4: status-code set and minDuration supplied. -/
def c4OptsW : NetworkSearchOptions :=
  { statusCode := some [200], minDuration := some 10 }

/-- Witness state for C3: one connected tab with one console message. -/
def c3StateW : ManagerState :=
  { connections := ["tab1"],
    consoleMessages := [("tab1", [c3Msg])],
    networkRequests := [("tab1", [])],
    networkResponses := [("tab1", [])] }


/-- error_correlate handler: guard, run the correlator over the tab
buffers, and filter by the minimum severity (default low). -/
def errorCorrelateHandler (st : ManagerState) (tabId : String)
    (minSeverity : Option CorrSeverity) :
    Except String (Nat × List ErrorCorrelation) :=
  if !(isConnected st tabId) then
    Except.error (notConnectedMsg tabId)
  else
    let correlations := correlateErrors (getConsoleMessages st tabId)
      (getNetworkRequests st tabId) (getNetworkResponses st tabId)
    let filtered := correlations.filter (fun c =>
      severityOrder c.severity ≥
        severityOrder (minSeverity.getD CorrSeverity.low))
    Except.ok (filtered.length, filtered)

/-- Measured durations of the requests that have a response with a
defined responseTime, in request order (claim-side characterization of
the durations array built by the analyzeNetworkPerformance loop). -/
def perfMeasuredDurations (reqs : List NetworkRequest)
    (resps : List NetworkResponse) : List Int :=
  reqs.filterMap (fun r => (responseMapGet resps r.requestId).bind
    (fun resp => resp.responseTime))

/-- url/duration pairs of the measured requests, in request order
(claim-side characterization of the slowRequests array). -/
def perfMeasuredPairs (reqs : List NetworkRequest)
    (resps : List NetworkResponse) : List (String × Int) :=
  reqs.filterMap (fun r => (responseMapGet resps r.requestId).bind
    (fun resp => resp.responseTime.map (fun t => (r.url, t))))


/-- Error-message builder for the C7 inputs. -/
def c7Msg (ts : Int) (text : String) : ConsoleMessage :=
  { level := LogLevel.error, text := text, timestamp := ts }

/-- C7 counterexample console snapshot: the seed at t=0 absorbs the
messages at t=2000 and t=4000 (which mention its keyword alpha) but not
those at t=1000 and t=3000, so the reported cascade has non-contiguous
members and the skip by size lands before its last member. -/
def c7Msgs : List ConsoleMessage :=
  [c7Msg 0 "alpha beta", c7Msg 1000 "zzz", c7Msg 2000 "has alpha inside",
   c7Msg 3000 "qqq", c7Msg 4000 "alpha gamma", c7Msg 5000 "gamma delta",
   c7Msg 6000 "gamma epsilon"]

/-- First cascade finding produced on c7Msgs, used by the C7 witness. -/
def c7F1 : ErrorCorrelation :=
  { id := "cascade-0",
    corrType := CorrType.cascade,
    severity := CorrSeverity.medium,
    consoleMessages := [c7Msg 0 "alpha beta", c7Msg 2000 "has alpha inside",
      c7Msg 4000 "alpha gamma"],
    timeSpanStart := 0,
    timeSpanEnd := 4000 }

/-- C8 counterexample errors: A has keywords aaa and bbb; B (keyword
aaa) and C (keyword bbb) are each similar to A but not to each other. -/
def c8A : ConsoleMessage :=
  { level := LogLevel.error, text := "aaa bbb", timestamp := 0 }

/-- Second C8 error. -/
def c8B : ConsoleMessage :=
  { level := LogLevel.error, text := "aaa", timestamp := 1000 }

/-- Third C8 error. -/
def c8C : ConsoleMessage :=
  { level := LogLevel.error, text := "bbb", timestamp := 2000 }

/-- Witness state for C2: one open session with data in every buffer. -/
def c2StateW : ManagerState :=
  { connections := ["tab1"],
    consoleMessages := [("tab1", [c3Msg])],
    networkRequests := [("tab1", [("a",
      { requestId := "a", url := "https://e.test/x", method := "GET",
        timestamp := 1 })])],
    networkResponses := [("tab1", [("a",
      { requestId := "a", url := "https://e.test/x", status := 200,
        timestamp := 2 })])] }

/-! ## Theorems -/

theorem takeLast_of_length_le {n : Nat} {l : List α} (h : l.length ≤ n) :
    takeLast n l = l := by
  simp [takeLast, Nat.sub_eq_zero_of_le h]
theorem length_takeLast (n : Nat) (l : List α) :
    (takeLast n l).length = min n l.length := by
  simp [takeLast]
  omega
theorem length_takeLast_le (n : Nat) (l : List α) :
    (takeLast n l).length ≤ n := by
  rw [length_takeLast]
  omega
theorem takeLast_append (n : Nat) (a s : List α) :
    takeLast n (a ++ s) = takeLast (n - s.length) a ++ takeLast n s := by
  unfold takeLast
  rcases Nat.le_total n s.length with h | h
  · rw [Nat.sub_eq_zero_of_le h, Nat.sub_zero, List.drop_length]
    have h1 : a.length + s.length - n = a.length + (s.length - n) := by omega
    rw [List.length_append, h1, List.drop_append]
    simp
  · have h1 : a.length + s.length - n = a.length - (n - s.length) := by omega
    have h2 : a.length - (n - s.length) ≤ a.length := Nat.sub_le _ _
    rw [List.length_append, h1, List.drop_append_of_le_length h2,
      Nat.sub_eq_zero_of_le h]
    simp
theorem takeLast_takeLast (m n : Nat) (l : List α) :
    takeLast m (takeLast n l) = takeLast (min m n) l := by
  unfold takeLast
  rw [List.drop_drop, List.length_drop]
  congr 1
  omega
theorem takeLast_takeLast_append (n : Nat) (x s : List α) :
    takeLast n (takeLast n x ++ s) = takeLast n (x ++ s) := by
  rw [takeLast_append, takeLast_append, takeLast_takeLast,
    Nat.min_eq_left (Nat.sub_le n s.length)]
theorem cappedPush_eq_takeLast {cap : Nat} (buf : List α)
    (a : α) (h : buf.length ≤ cap) :
    cappedPush cap buf a = takeLast cap (buf ++ [a]) := by
  unfold cappedPush
  by_cases hlen : (buf ++ [a]).length > cap
  · simp only [hlen, if_pos]
    have hl : (buf ++ [a]).length = cap + 1 := by
      rw [List.length_append, List.length_singleton]
      rw [List.length_append, List.length_singleton] at hlen
      omega
    unfold takeLast
    rw [hl, Nat.add_sub_cancel_left, List.drop_one]
  · simp only [hlen, if_neg, not_false_iff]
    rw [takeLast_of_length_le]
    omega
theorem foldl_cappedPush (cap : Nat) :
    ∀ (s : List α) (acc : List α), acc.length ≤ cap →
      s.foldl (cappedPush cap) acc = takeLast cap (acc ++ s)
  | [], acc, h => by
    simp [takeLast_of_length_le h]
  | a :: s, acc, h => by
    rw [List.foldl_cons, cappedPush_eq_takeLast acc a h,
      foldl_cappedPush cap s _ (length_takeLast_le _ _),
      takeLast_takeLast_append]
    simp
theorem jsMapSet_of_not_mem_keys {m : List (String × α)} {k : String}
    (h : k ∉ m.map Prod.fst) (v : α) : jsMapSet m k v = m ++ [(k, v)] := by
  induction m with
  | nil => rfl
  | cons p rest ih =>
    obtain ⟨k0, v0⟩ := p
    simp only [List.map_cons, List.mem_cons] at h
    push_neg at h
    simp only [jsMapSet, if_neg (Ne.symm h.1), ih h.2, List.cons_append]
theorem jsMapDelete_head {k0 : String} {v0 : α} {rest : List (String × α)} :
    jsMapDelete ((k0, v0) :: rest) k0 = rest := by
  simp [jsMapDelete]
theorem cappedMapSet_fresh_eq_cappedPush {cap : Nat} {key : α → String}
    {buf : List (String × α)} {a : α} (h : key a ∉ buf.map Prod.fst) :
    cappedMapSet cap key buf a = cappedPush cap buf (key a, a) := by
  unfold cappedMapSet cappedPush
  rw [jsMapSet_of_not_mem_keys h]
  by_cases hlen : (buf ++ [(key a, a)]).length > cap
  · rw [if_pos hlen, if_pos hlen]
    cases hb : buf ++ [(key a, a)] with
    | nil => simp at hb
    | cons p rest =>
      obtain ⟨k0, v0⟩ := p
      simp [jsMapDelete_head]
  · rw [if_neg hlen, if_neg hlen]
/-- Eviction-based ingestion of a keyed stream into an initially empty
Map, as performed by the network listeners.  Under pairwise-distinct keys
this is exactly the capped FIFO on key/value pairs. -/
theorem foldl_cappedMapSet (cap : Nat) (key : α → String) :
    ∀ (s : List α) (acc : List (String × α)), acc.length ≤ cap →
      (acc.map Prod.fst ++ s.map key).Nodup →
      s.foldl (cappedMapSet cap key) acc =
        takeLast cap (acc ++ s.map (fun a => (key a, a)))
  | [], acc, hlen, _ => by
    simp [takeLast_of_length_le hlen]
  | a :: s, acc, hlen, hnd => by
    have hfresh : key a ∉ acc.map Prod.fst := by
      intro hmem
      rw [List.nodup_append] at hnd
      exact hnd.2.2 hmem (by simp)
    rw [List.foldl_cons, cappedMapSet_fresh_eq_cappedPush hfresh,
      cappedPush_eq_takeLast acc (key a, a) hlen]
    have hsub : List.Sublist
        ((takeLast cap (acc ++ [(key a, a)])).map Prod.fst ++ s.map key)
        ((acc.map Prod.fst ++ [key a]) ++ s.map key) := by
      apply List.Sublist.append_right
      have h1 : List.Sublist (takeLast cap (acc ++ [(key a, a)]))
          (acc ++ [(key a, a)]) := List.drop_sublist _ _
      have h2 := h1.map Prod.fst
      simpa using h2
    have hnd2 : ((takeLast cap (acc ++ [(key a, a)])).map Prod.fst ++
        s.map key).Nodup := by
      apply hsub.nodup
      simpa using hnd
    rw [foldl_cappedMapSet cap key s _ (length_takeLast_le _ _) hnd2,
      takeLast_takeLast_append]
    simp

theorem takeLast_map (f : α → β) (n : Nat) (l : List α) :
    (takeLast n l).map f = takeLast n (l.map f) := by
  unfold takeLast
  rw [List.map_drop, List.length_map]

theorem c1IdOf_injective : Function.Injective c1IdOf := by
  intro a b h
  have := congrArg (fun s => s.data.length) h
  simpa [c1IdOf] using this

theorem ingestConsoleStream_eq (s : List ConsoleMessage) :
    ingestConsoleStream s = takeLast consoleCap s := by
  have h := foldl_cappedPush consoleCap s ([] : List ConsoleMessage)
    (Nat.zero_le _)
  simpa [ingestConsoleStream, pushConsoleMessage] using h

theorem ingestRequestStream_eq (s : List NetworkRequest)
    (h : (s.map (fun r => r.requestId)).Nodup) :
    ingestRequestStream s =
      takeLast networkCap (s.map (fun r => (r.requestId, r))) := by
  have h2 := @foldl_cappedMapSet NetworkRequest networkCap
    (fun r => r.requestId) s ([] : List (String × NetworkRequest))
    (Nat.zero_le _) (by simpa using h)
  simpa [ingestRequestStream, pushNetworkRequest] using h2

theorem ingestResponseStream_eq (s : List NetworkResponse)
    (h : (s.map (fun r => r.requestId)).Nodup) :
    ingestResponseStream s =
      takeLast networkCap (s.map (fun r => (r.requestId, r))) := by
  have h2 := @foldl_cappedMapSet NetworkResponse networkCap
    (fun r => r.requestId) s ([] : List (String × NetworkResponse))
    (Nat.zero_le _) (by simpa using h)
  simpa [ingestResponseStream, pushNetworkResponse] using h2

/-- C1: after ingesting K events of one record kind with K above the
configured cap (console 10000, requests 5000, responses 5000), the
session buffer holds exactly cap records, and those records are exactly
the most recent cap insertions in insertion order (strict FIFO eviction).
For the keyed request/response indexes the stream is assumed to carry
pairwise-distinct request ids, as delivered by the protocol. -/
theorem c1_bounded_fifo_eviction
    (ms : List ConsoleMessage) (rs : List NetworkRequest)
    (ps : List NetworkResponse)
    (hm : consoleCap < ms.length)
    (hr : networkCap < rs.length)
    (hrn : (rs.map (fun r => r.requestId)).Nodup)
    (hp : networkCap < ps.length)
    (hpn : (ps.map (fun r => r.requestId)).Nodup) :
    ((ingestConsoleStream ms).length = consoleCap ∧
      ingestConsoleStream ms = takeLast consoleCap ms) ∧
    ((ingestRequestStream rs).length = networkCap ∧
      (ingestRequestStream rs).map Prod.snd = takeLast networkCap rs) ∧
    ((ingestResponseStream ps).length = networkCap ∧
      (ingestResponseStream ps).map Prod.snd = takeLast networkCap ps) := by
  refine ⟨⟨?_, ?_⟩, ⟨?_, ?_⟩, ⟨?_, ?_⟩⟩
  · rw [ingestConsoleStream_eq, length_takeLast]
    omega
  · exact ingestConsoleStream_eq ms
  · rw [ingestRequestStream_eq rs hrn, length_takeLast, List.length_map]
    omega
  · rw [ingestRequestStream_eq rs hrn, takeLast_map]
    congr 1
    have hcomp : (Prod.snd ∘ fun r : NetworkRequest => (r.requestId, r)) =
        id := rfl
    rw [List.map_map, hcomp, List.map_id]
  · rw [ingestResponseStream_eq ps hpn, length_takeLast, List.length_map]
    omega
  · rw [ingestResponseStream_eq ps hpn, takeLast_map]
    congr 1
    have hcomp : (Prod.snd ∘ fun r : NetworkResponse => (r.requestId, r)) =
        id := rfl
    rw [List.map_map, hcomp, List.map_id]

/-- Witness for C1: the hypotheses hold at concrete streams of 10001
console messages and 5001 distinct-id requests/responses. -/
theorem c1_bounded_fifo_eviction_witness :
    (consoleCap < c1ConsoleStreamW.length ∧
      networkCap < c1RequestStreamW.length ∧
      (c1RequestStreamW.map (fun r => r.requestId)).Nodup ∧
      networkCap < c1ResponseStreamW.length ∧
      (c1ResponseStreamW.map (fun r => r.requestId)).Nodup) ∧
    (((ingestConsoleStream c1ConsoleStreamW).length = consoleCap ∧
      ingestConsoleStream c1ConsoleStreamW =
        takeLast consoleCap c1ConsoleStreamW) ∧
    ((ingestRequestStream c1RequestStreamW).length = networkCap ∧
      (ingestRequestStream c1RequestStreamW).map Prod.snd =
        takeLast networkCap c1RequestStreamW) ∧
    ((ingestResponseStream c1ResponseStreamW).length = networkCap ∧
      (ingestResponseStream c1ResponseStreamW).map Prod.snd =
        takeLast networkCap c1ResponseStreamW)) := by
  have h1 : consoleCap < c1ConsoleStreamW.length := by
    unfold c1ConsoleStreamW consoleCap
    rw [List.length_map, List.length_range]
    omega
  have h2 : networkCap < c1RequestStreamW.length := by
    unfold c1RequestStreamW networkCap
    rw [List.length_map, List.length_range]
    omega
  have h3 : (c1RequestStreamW.map (fun r => r.requestId)).Nodup := by
    have he : c1RequestStreamW.map (fun r => r.requestId) =
        (List.range 5001).map c1IdOf := by
      simp [c1RequestStreamW, List.map_map]
      intro a _
      rfl
    rw [he]
    exact (List.nodup_range 5001).map c1IdOf_injective
  have h4 : networkCap < c1ResponseStreamW.length := by
    unfold c1ResponseStreamW networkCap
    rw [List.length_map, List.length_range]
    omega
  have h5 : (c1ResponseStreamW.map (fun r => r.requestId)).Nodup := by
    have he : c1ResponseStreamW.map (fun r => r.requestId) =
        (List.range 5001).map c1IdOf := by
      simp [c1ResponseStreamW, List.map_map]
      intro a _
      rfl
    rw [he]
    exact (List.nodup_range 5001).map c1IdOf_injective
  exact ⟨⟨h1, h2, h3, h4, h5⟩,
    c1_bounded_fifo_eviction c1ConsoleStreamW c1RequestStreamW
      c1ResponseStreamW h1 h2 h3 h4 h5⟩

theorem consoleFilterLevel_eq (opts : SearchOptions)
    (l : List ConsoleMessage) :
    consoleFilterLevel opts l = l.filter (consoleLevelPass opts) := by
  unfold consoleFilterLevel
  cases h : opts.level with
  | none =>
    exact (List.filter_eq_self.mpr
      (fun a _ => by simp [consoleLevelPass, h])).symm
  | some levels =>
    exact List.filter_congr (fun a _ => by simp [consoleLevelPass, h])

theorem consoleFilterStart_eq (opts : SearchOptions)
    (l : List ConsoleMessage) :
    consoleFilterStart opts l = l.filter (consoleStartPass opts) := by
  unfold consoleFilterStart
  cases h : opts.startTime with
  | none =>
    exact (List.filter_eq_self.mpr
      (fun a _ => by simp [consoleStartPass, h])).symm
  | some t =>
    show (if t = 0 then l
      else l.filter (fun msg => msg.timestamp ≥ t)) = _
    by_cases ht : t = 0
    · rw [if_pos ht]
      exact (List.filter_eq_self.mpr
        (fun a _ => by simp [consoleStartPass, h, ht])).symm
    · rw [if_neg ht]
      exact List.filter_congr
        (fun a _ => by simp [consoleStartPass, h, ht])

theorem consoleFilterEnd_eq (opts : SearchOptions)
    (l : List ConsoleMessage) :
    consoleFilterEnd opts l = l.filter (consoleEndPass opts) := by
  unfold consoleFilterEnd
  cases h : opts.endTime with
  | none =>
    exact (List.filter_eq_self.mpr
      (fun a _ => by simp [consoleEndPass, h])).symm
  | some t =>
    show (if t = 0 then l
      else l.filter (fun msg => msg.timestamp ≤ t)) = _
    by_cases ht : t = 0
    · rw [if_pos ht]
      exact (List.filter_eq_self.mpr
        (fun a _ => by simp [consoleEndPass, h, ht])).symm
    · rw [if_neg ht]
      exact List.filter_congr
        (fun a _ => by simp [consoleEndPass, h, ht])

theorem consoleFilterPattern_eq (rt : String → Bool → String → Bool)
    (opts : SearchOptions) (l : List ConsoleMessage) :
    consoleFilterPattern rt opts l =
      l.filter (consolePatternPass rt opts) := by
  unfold consoleFilterPattern
  cases h : opts.pattern with
  | none =>
    exact (List.filter_eq_self.mpr
      (fun a _ => by simp [consolePatternPass, h])).symm
  | some p =>
    show (if p = "" then l
      else if opts.regex.getD false then
        l.filter (fun msg =>
          rt p (opts.caseSensitive.getD false)
            (if opts.caseSensitive.getD false then msg.text
             else jsToLower msg.text))
      else
        l.filter (fun msg =>
          strContains
            (if opts.caseSensitive.getD false then msg.text
             else jsToLower msg.text) (jsToLower p))) = _
    by_cases hp : p = ""
    · rw [if_pos hp]
      exact (List.filter_eq_self.mpr
        (fun a _ => by simp [consolePatternPass, h, hp])).symm
    · rw [if_neg hp]
      by_cases hr : opts.regex.getD false
      · rw [if_pos hr]
        exact List.filter_congr
          (fun a _ => by simp [consolePatternPass, h, hp, hr])
      · rw [if_neg hr]
        exact List.filter_congr
          (fun a _ => by simp [consolePatternPass, h, hp, hr])

theorem searchConsoleMessages_eq_filter
    (rt : String → Bool → String → Bool)
    (msgs : List ConsoleMessage) (opts : SearchOptions) :
    searchConsoleMessages rt msgs opts =
      applyJsLimit opts.limit (msgs.filter (matchesConsoleQuery rt opts)) := by
  unfold searchConsoleMessages
  rw [consoleFilterLevel_eq, consoleFilterStart_eq, consoleFilterEnd_eq,
    consoleFilterPattern_eq, List.filter_filter, List.filter_filter,
    List.filter_filter]
  congr 1
  apply List.filter_congr
  intro a _
  unfold matchesConsoleQuery
  cases consoleLevelPass opts a <;> cases consoleStartPass opts a <;>
    cases consoleEndPass opts a <;> cases consolePatternPass rt opts a <;>
    rfl


theorem mem_applyJsLimit {lim : Option Int} {l : List α} :
    ∀ e ∈ applyJsLimit lim l, e ∈ l := by
  intro e he
  unfold applyJsLimit at he
  split at he
  · split at he
    · exact (List.drop_sublist _ _).subset he
    · exact he
  · exact he

theorem netFilterUrl_subset {u : String → String → Bool}
    {opts : NetworkSearchOptions}
    {l : List (NetworkRequest × Option NetworkResponse)} :
    ∀ e ∈ netFilterUrl u opts l, e ∈ l := by
  intro e he
  unfold netFilterUrl at he
  repeat' split at he
  all_goals first
    | exact he
    | exact List.mem_of_mem_filter he

theorem netFilterMethod_subset {opts : NetworkSearchOptions}
    {l : List (NetworkRequest × Option NetworkResponse)} :
    ∀ e ∈ netFilterMethod opts l, e ∈ l := by
  intro e he
  unfold netFilterMethod at he
  repeat' split at he
  all_goals first
    | exact he
    | exact List.mem_of_mem_filter he

theorem netFilterStatusCode_subset {opts : NetworkSearchOptions}
    {l : List (NetworkRequest × Option NetworkResponse)} :
    ∀ e ∈ netFilterStatusCode opts l, e ∈ l := by
  intro e he
  unfold netFilterStatusCode at he
  repeat' split at he
  all_goals first
    | exact he
    | exact List.mem_of_mem_filter he

theorem netFilterStatusRange_subset {opts : NetworkSearchOptions}
    {l : List (NetworkRequest × Option NetworkResponse)} :
    ∀ e ∈ netFilterStatusRange opts l, e ∈ l := by
  intro e he
  unfold netFilterStatusRange at he
  repeat' split at he
  all_goals first
    | exact he
    | exact List.mem_of_mem_filter he

theorem netFilterResourceType_subset {opts : NetworkSearchOptions}
    {l : List (NetworkRequest × Option NetworkResponse)} :
    ∀ e ∈ netFilterResourceType opts l, e ∈ l := by
  intro e he
  unfold netFilterResourceType at he
  repeat' split at he
  all_goals first
    | exact he
    | exact List.mem_of_mem_filter he

theorem netFilterDuration_subset {opts : NetworkSearchOptions}
    {l : List (NetworkRequest × Option NetworkResponse)} :
    ∀ e ∈ netFilterDuration opts l, e ∈ l := by
  intro e he
  unfold netFilterDuration at he
  repeat' split at he
  all_goals first
    | exact he
    | exact List.mem_of_mem_filter he

theorem netFilterStart_subset {opts : NetworkSearchOptions}
    {l : List (NetworkRequest × Option NetworkResponse)} :
    ∀ e ∈ netFilterStart opts l, e ∈ l := by
  intro e he
  unfold netFilterStart at he
  repeat' split at he
  all_goals first
    | exact he
    | exact List.mem_of_mem_filter he

theorem netFilterEnd_subset {opts : NetworkSearchOptions}
    {l : List (NetworkRequest × Option NetworkResponse)} :
    ∀ e ∈ netFilterEnd opts l, e ∈ l := by
  intro e he
  unfold netFilterEnd at he
  repeat' split at he
  all_goals first
    | exact he
    | exact List.mem_of_mem_filter he

theorem responseMapGet_mem {resps : List NetworkResponse} {id : String}
    {resp : NetworkResponse} (h : responseMapGet resps id = some resp) :
    resp ∈ resps ∧ resp.requestId = id := by
  unfold responseMapGet at h
  have hm := List.mem_of_mem_getLast? h
  have := List.mem_filter.mp hm
  exact ⟨this.1, by simpa using this.2⟩

theorem netFilterStatusCode_resp {opts : NetworkSearchOptions}
    {l : List (NetworkRequest × Option NetworkResponse)}
    (h : opts.statusCode.isSome = true) :
    ∀ e ∈ netFilterStatusCode opts l, e.2.isSome = true := by
  intro e he
  unfold netFilterStatusCode at he
  cases hs : opts.statusCode with
  | none => rw [hs] at h; simp at h
  | some codes =>
    rw [hs] at he
    have hp := (List.mem_filter.mp he).2
    cases h2 : e.2 with
    | none => rw [h2] at hp; simp at hp
    | some resp => rfl

theorem netFilterStatusRange_resp {opts : NetworkSearchOptions}
    {l : List (NetworkRequest × Option NetworkResponse)}
    (h : opts.statusRange.isSome = true) :
    ∀ e ∈ netFilterStatusRange opts l, e.2.isSome = true := by
  intro e he
  unfold netFilterStatusRange at he
  cases hs : opts.statusRange with
  | none => rw [hs] at h; simp at h
  | some range =>
    rw [hs] at he
    have hp := (List.mem_filter.mp he).2
    cases h2 : e.2 with
    | none => rw [h2] at hp; simp at hp
    | some resp => rfl

theorem netFilterDuration_resp {opts : NetworkSearchOptions}
    {l : List (NetworkRequest × Option NetworkResponse)}
    (h : (opts.minDuration.isSome || opts.maxDuration.isSome) = true) :
    ∀ e ∈ netFilterDuration opts l, e.2.isSome = true := by
  intro e he
  unfold netFilterDuration at he
  rw [if_pos h] at he
  have hp := (List.mem_filter.mp he).2
  cases h2 : e.2 with
  | none => rw [h2] at hp; simp at hp
  | some resp => rfl

theorem netFilterDuration_min {opts : NetworkSearchOptions}
    {l : List (NetworkRequest × Option NetworkResponse)} {d : Int}
    (h : opts.minDuration = some d) :
    ∀ e ∈ netFilterDuration opts l,
      ∃ resp t, e.2 = some resp ∧ resp.responseTime = some t ∧ d ≤ t := by
  intro e he
  unfold netFilterDuration at he
  rw [if_pos (by rw [h]; rfl)] at he
  have hp := (List.mem_filter.mp he).2
  cases h2 : e.2 with
  | none => rw [h2] at hp; simp at hp
  | some resp =>
    rw [h2] at hp
    cases h3 : resp.responseTime with
    | none => simp [h3] at hp
    | some t =>
      simp [h3, h] at hp
      exact ⟨resp, t, rfl, h3, hp.1⟩

/-- C4: the network query result is a subset of the ingested requests
(each returned pair couples a request from the input with the last
ingested response bearing its id); whenever a response-dependent
predicate (status-code set, status range, min/max duration) is supplied,
every returned entry carries a response; and when minDuration is set,
every returned entry has a defined measured responseTime of at least
minDuration. -/
theorem c4_network_query_soundness (urlTest : String → String → Bool)
    (reqs : List NetworkRequest) (resps : List NetworkResponse)
    (opts : NetworkSearchOptions) :
    (∀ e ∈ searchNetworkRequests urlTest reqs resps opts,
      e.1 ∈ reqs ∧ ∀ resp, e.2 = some resp →
        resp ∈ resps ∧ resp.requestId = e.1.requestId) ∧
    ((opts.statusCode.isSome || opts.statusRange.isSome ||
      opts.minDuration.isSome || opts.maxDuration.isSome) = true →
      ∀ e ∈ searchNetworkRequests urlTest reqs resps opts,
        e.2.isSome = true) ∧
    (∀ d, opts.minDuration = some d →
      ∀ e ∈ searchNetworkRequests urlTest reqs resps opts,
        ∃ resp t, e.2 = some resp ∧ resp.responseTime = some t ∧ d ≤ t) := by
  have hsub6 : ∀ e ∈ searchNetworkRequests urlTest reqs resps opts,
      e ∈ netFilterDuration opts
        (netFilterResourceType opts
          (netFilterStatusRange opts
            (netFilterStatusCode opts
              (netFilterMethod opts
                (netFilterUrl urlTest opts
                  (reqs.map (fun request =>
                    (request,
                      responseMapGet resps request.requestId)))))))) :=
    fun e he =>
      netFilterStart_subset e (netFilterEnd_subset e (mem_applyJsLimit e he))
  have hsub4 : ∀ e ∈ searchNetworkRequests urlTest reqs resps opts,
      e ∈ netFilterStatusRange opts
        (netFilterStatusCode opts
          (netFilterMethod opts
            (netFilterUrl urlTest opts
              (reqs.map (fun request =>
                (request, responseMapGet resps request.requestId)))))) :=
    fun e he =>
      netFilterResourceType_subset e (netFilterDuration_subset e
        (hsub6 e he))
  have hsub3 : ∀ e ∈ searchNetworkRequests urlTest reqs resps opts,
      e ∈ netFilterStatusCode opts
        (netFilterMethod opts
          (netFilterUrl urlTest opts
            (reqs.map (fun request =>
              (request, responseMapGet resps request.requestId))))) :=
    fun e he => netFilterStatusRange_subset e (hsub4 e he)
  have hsub0 : ∀ e ∈ searchNetworkRequests urlTest reqs resps opts,
      e ∈ reqs.map (fun request =>
        (request, responseMapGet resps request.requestId)) :=
    fun e he =>
      netFilterUrl_subset e (netFilterMethod_subset e
        (netFilterStatusCode_subset e (hsub3 e he)))
  refine ⟨?_, ?_, ?_⟩
  · intro e he
    obtain ⟨r, hr, rfl⟩ := List.mem_map.mp (hsub0 e he)
    refine ⟨hr, ?_⟩
    intro resp hresp
    exact responseMapGet_mem hresp
  · intro hgate e he
    by_cases hc : opts.statusCode.isSome = true
    · exact netFilterStatusCode_resp hc e (hsub3 e he)
    · by_cases hr : opts.statusRange.isSome = true
      · exact netFilterStatusRange_resp hr e (hsub4 e he)
      · have hdur : (opts.minDuration.isSome ||
            opts.maxDuration.isSome) = true := by
          simpa [hc, hr] using hgate
        exact netFilterDuration_resp hdur e (hsub6 e he)
  · intro d hd e he
    exact netFilterDuration_min hd e (hsub6 e he)


/-- C3 counterexample: with caseSensitive set and the literal pattern
"ERR", the source lowercases the pattern but not the text, so the
message "ERROR" is not returned even though it contains "ERR" -- the
claimed case-sensitive literal substring test (spec-side helper) accepts
it.  The claim as stated is therefore false. -/
theorem c3_console_query_counterexample :
    searchConsoleMessages (fun _ _ _ => false) [c3Msg] c3Opts = [] ∧
    specCaseSensitiveSubstringTest c3Opts c3Msg = true := by
  decide

/-- C3 (amended): the console query returns exactly the messages passing
the conjunction of the level-set clause, the inclusive [startTime,
endTime] clauses and the pattern clause as the source implements it
(the pattern is always lowercased; the text is lowercased only when the
search is case-insensitive), truncated to the last N matches in original
order; the console_search handler supplies N with default 100. -/
theorem c3_console_query_amended :
    (∀ (rt : String → Bool → String → Bool) (msgs : List ConsoleMessage)
      (opts : SearchOptions),
      searchConsoleMessages rt msgs opts =
        applyJsLimit opts.limit
          (msgs.filter (matchesConsoleQuery rt opts))) ∧
    (∀ (n : Int) (l : List ConsoleMessage),
      applyJsLimit (some n) l =
        if 0 < n then takeLast n.toNat l else l) ∧
    (∀ (rt : String → Bool → String → Bool) (st : ManagerState)
      (tabId : String) (args : ConsoleSearchArgs),
      args.limit = none → isConnected st tabId = true →
      consoleSearchHandler rt st tabId args =
        Except.ok
          ((getConsoleMessages st tabId).length,
            (searchConsoleMessages rt (getConsoleMessages st tabId)
              { pattern := args.pattern, regex := args.regex,
                level := args.level, limit := some 100 }).length,
            searchConsoleMessages rt (getConsoleMessages st tabId)
              { pattern := args.pattern, regex := args.regex,
                level := args.level, limit := some 100 })) := by
  refine ⟨searchConsoleMessages_eq_filter, ?_, ?_⟩
  · intro n l
    show (if n > 0 then takeLast n.toNat l else l) = _
    by_cases hn : 0 < n
    · rw [if_pos hn]
    · rw [if_neg hn]
  · intro rt st tabId args hlim hconn
    unfold consoleSearchHandler
    rw [hconn]
    simp only [hlim, Bool.not_true, Bool.false_eq_true, if_false]
    rfl

/-- Witness for the C3 amended theorem: its handler conjunct applied at
a connected one-message state with no caller limit. -/
theorem c3_console_query_amended_witness :
    ((none : Option Int) = none ∧ isConnected c3StateW "tab1" = true) ∧
    consoleSearchHandler (fun _ _ _ => false) c3StateW "tab1"
        { pattern := none, regex := none, level := none, limit := none } =
      Except.ok
        ((getConsoleMessages c3StateW "tab1").length,
          (searchConsoleMessages (fun _ _ _ => false)
            (getConsoleMessages c3StateW "tab1")
            { pattern := none, regex := none, level := none,
              limit := some 100 }).length,
          searchConsoleMessages (fun _ _ _ => false)
            (getConsoleMessages c3StateW "tab1")
            { pattern := none, regex := none, level := none,
              limit := some 100 }) :=
  ⟨⟨rfl, by decide⟩,
    c3_console_query_amended.2.2 (fun _ _ _ => false) c3StateW "tab1"
      { pattern := none, regex := none, level := none, limit := none }
      rfl (by decide)⟩

/-- Witness for C4: the response-dependent clauses applied at a concrete
one-request input with statusCode and minDuration filters supplied. -/
theorem c4_network_query_soundness_witness :
    ((c4OptsW.statusCode.isSome || c4OptsW.statusRange.isSome ||
      c4OptsW.minDuration.isSome || c4OptsW.maxDuration.isSome) = true ∧
      c4OptsW.minDuration = some 10) ∧
    (∀ e ∈ searchNetworkRequests (fun _ _ => true) c4ReqsW c4RespsW
        c4OptsW, e.2.isSome = true) ∧
    (∀ e ∈ searchNetworkRequests (fun _ _ => true) c4ReqsW c4RespsW
        c4OptsW,
      ∃ resp t, e.2 = some resp ∧ resp.responseTime = some t ∧
        (10 : Int) ≤ t) :=
  ⟨⟨by decide, rfl⟩,
    (c4_network_query_soundness (fun _ _ => true) c4ReqsW c4RespsW
      c4OptsW).2.1 (by decide),
    (c4_network_query_soundness (fun _ _ => true) c4ReqsW c4RespsW
      c4OptsW).2.2 10 rfl⟩

/-- C5 counterexample: analyzeNetworkPerformance returns no
largest-by-encoded-size list: two response sets that differ only by
swapping the two encoded sizes produce identical analysis results, while
the spec-side ten-largest-by-size lists differ, so no component of the
result can be that list. -/
theorem c5_perf_stats_counterexample :
    analyzeNetworkPerformance c5Reqs c5RespsA =
      analyzeNetworkPerformance c5Reqs c5RespsB ∧
    specLargestBySize c5Reqs c5RespsA ≠ specLargestBySize c5Reqs c5RespsB := by
  decide

theorem jsMapGet_jsMapSet (m : List (String × α)) (k k2 : String) (v : α) :
    jsMapGet (jsMapSet m k v) k2 =
      if k = k2 then some v else jsMapGet m k2 := by
  induction m with
  | nil => simp [jsMapSet, jsMapGet]
  | cons p rest ih =>
    obtain ⟨k0, v0⟩ := p
    by_cases h0 : k0 = k <;> by_cases h2 : k0 = k2 <;>
      by_cases h3 : k = k2 <;>
      simp_all [jsMapSet, jsMapGet]

theorem jsMapGet_jsRecordIncr (m : List (String × Nat)) (k k2 : String) :
    (jsMapGet (jsRecordIncr m k) k2).getD 0 =
      (if k = k2 then 1 else 0) + (jsMapGet m k2).getD 0 := by
  unfold jsRecordIncr
  rw [jsMapGet_jsMapSet]
  by_cases h : k = k2
  · subst h
    simp
    omega
  · simp [h]

theorem perfStep_durations (lk : String → Option NetworkResponse)
    (acc : PerfAcc) (r : NetworkRequest) :
    (perfStep lk acc r).durations =
      acc.durations ++
        (match lk r.requestId with
          | some resp => (match resp.responseTime with
            | some t => [t]
            | none => [])
          | none => []) := by
  cases hlk : lk r.requestId with
  | none =>
    cases hrt : r.resourceType with
    | none => simp [perfStep, hlk, hrt]
    | some t =>
      by_cases ht : t = "" <;> simp [perfStep, hlk, hrt, ht]
  | some resp =>
    cases hres : resp.responseTime with
    | none =>
      cases hrt : r.resourceType with
      | none =>
        by_cases hst : resp.status ≥ 400 <;>
          simp [perfStep, hlk, hrt, hres, hst]
      | some t =>
        by_cases ht : t = "" <;> by_cases hst : resp.status ≥ 400 <;>
          simp [perfStep, hlk, hrt, hres, ht, hst]
    | some d =>
      cases hrt : r.resourceType with
      | none =>
        by_cases hst : resp.status ≥ 400 <;>
          simp [perfStep, hlk, hrt, hres, hst]
      | some t =>
        by_cases ht : t = "" <;> by_cases hst : resp.status ≥ 400 <;>
          simp [perfStep, hlk, hrt, hres, ht, hst]

theorem perfStep_slow (lk : String → Option NetworkResponse)
    (acc : PerfAcc) (r : NetworkRequest) :
    (perfStep lk acc r).slowRequests =
      acc.slowRequests ++
        (match lk r.requestId with
          | some resp => (match resp.responseTime with
            | some t => [(r.url, t)]
            | none => [])
          | none => []) := by
  cases hlk : lk r.requestId with
  | none =>
    cases hrt : r.resourceType with
    | none => simp [perfStep, hlk, hrt]
    | some t =>
      by_cases ht : t = "" <;> simp [perfStep, hlk, hrt, ht]
  | some resp =>
    cases hres : resp.responseTime with
    | none =>
      cases hrt : r.resourceType with
      | none =>
        by_cases hst : resp.status ≥ 400 <;>
          simp [perfStep, hlk, hrt, hres, hst]
      | some t =>
        by_cases ht : t = "" <;> by_cases hst : resp.status ≥ 400 <;>
          simp [perfStep, hlk, hrt, hres, ht, hst]
    | some d =>
      cases hrt : r.resourceType with
      | none =>
        by_cases hst : resp.status ≥ 400 <;>
          simp [perfStep, hlk, hrt, hres, hst]
      | some t =>
        by_cases ht : t = "" <;> by_cases hst : resp.status ≥ 400 <;>
          simp [perfStep, hlk, hrt, hres, ht, hst]

theorem perfStep_failed (lk : String → Option NetworkResponse)
    (acc : PerfAcc) (r : NetworkRequest) :
    (perfStep lk acc r).failedCount =
      acc.failedCount +
        (if (match lk r.requestId with
          | some resp => decide (400 ≤ resp.status)
          | none => false) = true then 1 else 0) := by
  cases hlk : lk r.requestId with
  | none =>
    cases hrt : r.resourceType with
    | none => simp [perfStep, hlk, hrt]
    | some t =>
      by_cases ht : t = "" <;> simp [perfStep, hlk, hrt, ht]
  | some resp =>
    cases hres : resp.responseTime with
    | none =>
      cases hrt : r.resourceType with
      | none =>
        by_cases hst : resp.status ≥ 400 <;>
          simp [perfStep, hlk, hrt, hres, hst]
      | some t =>
        by_cases ht : t = "" <;> by_cases hst : resp.status ≥ 400 <;>
          simp [perfStep, hlk, hrt, hres, ht, hst]
    | some d =>
      cases hrt : r.resourceType with
      | none =>
        by_cases hst : resp.status ≥ 400 <;>
          simp [perfStep, hlk, hrt, hres, hst]
      | some t =>
        by_cases ht : t = "" <;> by_cases hst : resp.status ≥ 400 <;>
          simp [perfStep, hlk, hrt, hres, ht, hst]

theorem perfStep_statusCounts (lk : String → Option NetworkResponse)
    (acc : PerfAcc) (r : NetworkRequest) :
    (perfStep lk acc r).statusCounts =
      match lk r.requestId with
      | some resp => jsRecordIncr acc.statusCounts
          (statusGroupOf resp.status)
      | none => acc.statusCounts := by
  cases hlk : lk r.requestId with
  | none =>
    cases hrt : r.resourceType with
    | none => simp [perfStep, hlk, hrt]
    | some t =>
      by_cases ht : t = "" <;> simp [perfStep, hlk, hrt, ht]
  | some resp =>
    cases hres : resp.responseTime with
    | none =>
      cases hrt : r.resourceType with
      | none =>
        by_cases hst : resp.status ≥ 400 <;>
          simp [perfStep, hlk, hrt, hres, hst]
      | some t =>
        by_cases ht : t = "" <;> by_cases hst : resp.status ≥ 400 <;>
          simp [perfStep, hlk, hrt, hres, ht, hst]
    | some d =>
      cases hrt : r.resourceType with
      | none =>
        by_cases hst : resp.status ≥ 400 <;>
          simp [perfStep, hlk, hrt, hres, hst]
      | some t =>
        by_cases ht : t = "" <;> by_cases hst : resp.status ≥ 400 <;>
          simp [perfStep, hlk, hrt, hres, ht, hst]

theorem perfStep_typeCounts (lk : String → Option NetworkResponse)
    (acc : PerfAcc) (r : NetworkRequest) :
    (perfStep lk acc r).typeCounts =
      match r.resourceType with
      | some t => if t = "" then acc.typeCounts
          else jsRecordIncr acc.typeCounts t
      | none => acc.typeCounts := by
  cases hlk : lk r.requestId with
  | none =>
    cases hrt : r.resourceType with
    | none => simp [perfStep, hlk, hrt]
    | some t =>
      by_cases ht : t = "" <;> simp [perfStep, hlk, hrt, ht]
  | some resp =>
    cases hres : resp.responseTime with
    | none =>
      cases hrt : r.resourceType with
      | none =>
        by_cases hst : resp.status ≥ 400 <;>
          simp [perfStep, hlk, hrt, hres, hst]
      | some t =>
        by_cases ht : t = "" <;> by_cases hst : resp.status ≥ 400 <;>
          simp [perfStep, hlk, hrt, hres, ht, hst]
    | some d =>
      cases hrt : r.resourceType with
      | none =>
        by_cases hst : resp.status ≥ 400 <;>
          simp [perfStep, hlk, hrt, hres, hst]
      | some t =>
        by_cases ht : t = "" <;> by_cases hst : resp.status ≥ 400 <;>
          simp [perfStep, hlk, hrt, hres, ht, hst]

theorem perfFold_durations (lk : String → Option NetworkResponse) :
    ∀ (l : List NetworkRequest) (acc : PerfAcc),
      (l.foldl (perfStep lk) acc).durations =
        acc.durations ++
          l.filterMap (fun r => (lk r.requestId).bind
            (fun resp => resp.responseTime))
  | [], acc => by simp
  | r :: l, acc => by
    rw [List.foldl_cons, perfFold_durations lk l _, perfStep_durations]
    rw [List.filterMap_cons, List.append_assoc]
    cases hlk : lk r.requestId with
    | none => simp [hlk]
    | some resp =>
      cases hres : resp.responseTime with
      | none => simp [hlk, hres]
      | some t => simp [hlk, hres]

theorem perfFold_slow (lk : String → Option NetworkResponse) :
    ∀ (l : List NetworkRequest) (acc : PerfAcc),
      (l.foldl (perfStep lk) acc).slowRequests =
        acc.slowRequests ++
          l.filterMap (fun r => (lk r.requestId).bind
            (fun resp => resp.responseTime.map (fun t => (r.url, t))))
  | [], acc => by simp
  | r :: l, acc => by
    rw [List.foldl_cons, perfFold_slow lk l _, perfStep_slow]
    rw [List.filterMap_cons, List.append_assoc]
    cases hlk : lk r.requestId with
    | none => simp [hlk]
    | some resp =>
      cases hres : resp.responseTime with
      | none => simp [hlk, hres]
      | some t => simp [hlk, hres]

theorem perfFold_failed (lk : String → Option NetworkResponse) :
    ∀ (l : List NetworkRequest) (acc : PerfAcc),
      (l.foldl (perfStep lk) acc).failedCount =
        acc.failedCount +
          l.countP (fun r => match lk r.requestId with
            | some resp => decide (400 ≤ resp.status)
            | none => false)
  | [], acc => by simp
  | r :: l, acc => by
    rw [List.foldl_cons, perfFold_failed lk l _, perfStep_failed,
      List.countP_cons]
    cases hlk : lk r.requestId with
    | none => simp [hlk]
    | some resp =>
      by_cases hst : 400 ≤ resp.status <;> simp [hlk, hst] <;> omega

theorem perfFold_statusCounts (lk : String → Option NetworkResponse) :
    ∀ (l : List NetworkRequest) (acc : PerfAcc) (g : String),
      (jsMapGet (l.foldl (perfStep lk) acc).statusCounts g).getD 0 =
        (jsMapGet acc.statusCounts g).getD 0 +
          l.countP (fun r => match lk r.requestId with
            | some resp => statusGroupOf resp.status == g
            | none => false)
  | [], acc, g => by simp
  | r :: l, acc, g => by
    rw [List.foldl_cons, perfFold_statusCounts lk l _ g,
      List.countP_cons]
    cases hlk : lk r.requestId with
    | none => simp [perfStep_statusCounts, hlk]
    | some resp =>
      rw [perfStep_statusCounts]
      rw [hlk]
      rw [jsMapGet_jsRecordIncr]
      by_cases hg : statusGroupOf resp.status = g
      · simp [hg]
        omega
      · simp [hg]

theorem perfFold_typeCounts (lk : String → Option NetworkResponse) :
    ∀ (l : List NetworkRequest) (acc : PerfAcc) (g : String),
      (jsMapGet (l.foldl (perfStep lk) acc).typeCounts g).getD 0 =
        (jsMapGet acc.typeCounts g).getD 0 +
          l.countP (fun r => match r.resourceType with
            | some t => !(t = "") && t == g
            | none => false)
  | [], acc, g => by simp
  | r :: l, acc, g => by
    rw [List.foldl_cons, perfFold_typeCounts lk l _ g, List.countP_cons]
    cases hrt : r.resourceType with
    | none => simp [perfStep_typeCounts, hrt]
    | some t =>
      rw [perfStep_typeCounts, hrt]
      show (jsMapGet (if t = "" then acc.typeCounts
          else jsRecordIncr acc.typeCounts t) g).getD 0 + _ = _
      by_cases ht : t = ""
      · simp [ht]
      · rw [if_neg ht, jsMapGet_jsRecordIncr]
        by_cases hg : t = g
        · subst hg
          simp [ht]
          omega
        · simp [ht, hg]

/-- C5 (amended): the aggregate performance stats return the total and
failed request counts, a mean response time over only the responses with
a measured time (absent times are excluded, not zero), counts grouped by
coarse status class (Nxx) and by resource type, and the ten measured
requests with the largest duration, largest first.  The claimed
ten-largest-by-encoded-size list does not exist in the result (see the
counterexample) and is dropped from the claim. -/
theorem c5_perf_stats_amended (reqs : List NetworkRequest)
    (resps : List NetworkResponse) :
    (analyzeNetworkPerformance reqs resps).totalRequests = reqs.length ∧
    (analyzeNetworkPerformance reqs resps).failedRequests =
      reqs.countP (fun r =>
        match responseMapGet resps r.requestId with
        | some resp => decide (400 ≤ resp.status)
        | none => false) ∧
    (analyzeNetworkPerformance reqs resps).averageResponseTime =
      (if perfMeasuredDurations reqs resps = [] then 0
       else ((perfMeasuredDurations reqs resps).sum : Rat) /
         ((perfMeasuredDurations reqs resps).length : Rat)) ∧
    (∀ g, (jsMapGet
        (analyzeNetworkPerformance reqs resps).requestsByStatus g).getD 0 =
      reqs.countP (fun r =>
        match responseMapGet resps r.requestId with
        | some resp => statusGroupOf resp.status == g
        | none => false)) ∧
    (∀ g, (jsMapGet
        (analyzeNetworkPerformance reqs resps).requestsByType g).getD 0 =
      reqs.countP (fun r =>
        match r.resourceType with
        | some t => !(t = "") && t == g
        | none => false)) ∧
    (∃ rest,
      ((analyzeNetworkPerformance reqs resps).slowestRequests ++
        rest).Perm (perfMeasuredPairs reqs resps) ∧
      (analyzeNetworkPerformance reqs resps).slowestRequests.Pairwise
        (fun a b => b.2 ≤ a.2) ∧
      (∀ x ∈ (analyzeNetworkPerformance reqs resps).slowestRequests,
        ∀ y ∈ rest, y.2 ≤ x.2) ∧
      (analyzeNetworkPerformance reqs resps).slowestRequests.length =
        min 10 (perfMeasuredPairs reqs resps).length) := by
  haveI htot : IsTotal (String × Int) (fun a b => b.2 ≤ a.2) :=
    ⟨fun a b => le_total b.2 a.2⟩
  haveI htrans : IsTrans (String × Int) (fun a b => b.2 ≤ a.2) :=
    ⟨fun a b c hab hbc => le_trans hbc hab⟩
  have hdur : (reqs.foldl (perfStep (responseMapGet resps))
      (({} : PerfAcc))).durations = perfMeasuredDurations reqs resps := by
    rw [perfFold_durations]
    simp [perfMeasuredDurations]
  have hslow : (reqs.foldl (perfStep (responseMapGet resps))
      (({} : PerfAcc))).slowRequests = perfMeasuredPairs reqs resps := by
    rw [perfFold_slow]
    simp [perfMeasuredPairs]
  refine ⟨rfl, ?_, ?_, ?_, ?_, ?_⟩
  · show (reqs.foldl (perfStep (responseMapGet resps))
      (({} : PerfAcc))).failedCount = _
    rw [perfFold_failed]
    simp
  · show (if (reqs.foldl (perfStep (responseMapGet resps))
        (({} : PerfAcc))).durations.length > 0 then _ else 0) = _
    rw [hdur]
    by_cases hD : perfMeasuredDurations reqs resps = []
    · rw [if_neg (by simp [hD]), if_pos hD]
    · rw [if_pos (by simp [List.length_pos, hD]), if_neg hD]
  · intro g
    show (jsMapGet (reqs.foldl (perfStep (responseMapGet resps))
        (({} : PerfAcc))).statusCounts g).getD 0 = _
    rw [perfFold_statusCounts]
    simp [jsMapGet]
  · intro g
    show (jsMapGet (reqs.foldl (perfStep (responseMapGet resps))
        (({} : PerfAcc))).typeCounts g).getD 0 = _
    rw [perfFold_typeCounts]
    simp [jsMapGet]
  · have hsl : (analyzeNetworkPerformance reqs resps).slowestRequests =
        (List.insertionSort (fun a b : String × Int => b.2 ≤ a.2)
          (perfMeasuredPairs reqs resps)).take 10 := by
      show (List.insertionSort _ (reqs.foldl
        (perfStep (responseMapGet resps)) (({} : PerfAcc))).slowRequests
          ).take 10 = _
      rw [hslow]
    refine ⟨(List.insertionSort (fun a b : String × Int => b.2 ≤ a.2)
      (perfMeasuredPairs reqs resps)).drop 10, ?_, ?_, ?_, ?_⟩
    · rw [hsl, List.take_append_drop]
      exact List.perm_insertionSort _ _
    · rw [hsl]
      exact List.Pairwise.sublist (List.take_sublist _ _)
        (List.sorted_insertionSort _ _)
    · intro x hx y hy
      rw [hsl] at hx
      have hs := List.sorted_insertionSort
        (fun a b : String × Int => b.2 ≤ a.2)
        (perfMeasuredPairs reqs resps)
      have hp : List.Pairwise (fun a b : String × Int => b.2 ≤ a.2)
          ((List.insertionSort (fun a b : String × Int => b.2 ≤ a.2)
            (perfMeasuredPairs reqs resps)).take 10 ++
          (List.insertionSort (fun a b : String × Int => b.2 ≤ a.2)
            (perfMeasuredPairs reqs resps)).drop 10) := by
        rw [List.take_append_drop]
        exact hs
      exact (List.pairwise_append.mp hp).2.2 x hx y hy
    · rw [hsl, List.length_take,
        (List.perm_insertionSort (fun a b : String × Int => b.2 ≤ a.2)
          (perfMeasuredPairs reqs resps)).length_eq]

theorem jsMapGet_eq_none_of_not_mem_keys {m : List (String × α)}
    {k : String} (h : k ∉ m.map Prod.fst) : jsMapGet m k = none := by
  induction m with
  | nil => rfl
  | cons p rest ih =>
    obtain ⟨k0, v0⟩ := p
    simp only [List.map_cons, List.mem_cons] at h
    push_neg at h
    simp only [jsMapGet, if_neg (Ne.symm h.1)]
    exact ih h.2

theorem jsMapGet_jsMapDelete_self {m : List (String × α)}
    (h : (m.map Prod.fst).Nodup) (k : String) :
    jsMapGet (jsMapDelete m k) k = none := by
  induction m with
  | nil => rfl
  | cons p rest ih =>
    obtain ⟨k0, v0⟩ := p
    simp only [List.map_cons, List.nodup_cons] at h
    by_cases h0 : k0 = k
    · subst h0
      simp only [jsMapDelete, if_pos rfl]
      exact jsMapGet_eq_none_of_not_mem_keys h.1
    · simp only [jsMapDelete, if_neg h0, jsMapGet, if_neg h0]
      exact ih h.2

theorem isConnected_disconnectTab (st : ManagerState) (tabId : String)
    (hnd : st.connections.Nodup) :
    isConnected (disconnectTab st tabId) tabId = false := by
  unfold disconnectTab
  by_cases hco : st.connections.contains tabId
  · rw [if_pos hco]
    show (st.connections.erase tabId).contains tabId = false
    rw [show (st.connections.erase tabId).contains tabId =
      (st.connections.erase tabId).elem tabId from rfl, List.elem_eq_mem]
    simp [hnd.not_mem_erase]
  · rw [if_neg hco]
    show st.connections.contains tabId = false
    exact Bool.not_eq_true _ ▸ (by simpa using hco)

/-- C2: closing a session invalidates it: every query handler against
the closed id fails with the session-not-found error, and for a session
that was open the close discards all three of its buffers.  The Map-key
lists are assumed duplicate-free (the JS Map invariant). -/
theorem c2_close_session (rt : String → Bool → String → Bool)
    (ut : String → String → Bool) (st : ManagerState) (tabId : String)
    (cargs : ConsoleSearchArgs) (nargs : NetworkAnalyzeArgs)
    (msev : Option CorrSeverity)
    (hnd : st.connections.Nodup)
    (hcm : (st.consoleMessages.map Prod.fst).Nodup)
    (hrq : (st.networkRequests.map Prod.fst).Nodup)
    (hrp : (st.networkResponses.map Prod.fst).Nodup) :
    isConnected (disconnectTab st tabId) tabId = false ∧
    consoleSearchHandler rt (disconnectTab st tabId) tabId cargs =
      Except.error (notConnectedMsg tabId) ∧
    networkAnalyzeHandler ut (disconnectTab st tabId) tabId nargs =
      Except.error (notConnectedMsg tabId) ∧
    networkPerformanceHandler (disconnectTab st tabId) tabId =
      Except.error (notConnectedMsg tabId) ∧
    errorCorrelateHandler (disconnectTab st tabId) tabId msev =
      Except.error (notConnectedMsg tabId) ∧
    (isConnected st tabId = true →
      jsMapGet (disconnectTab st tabId).consoleMessages tabId = none ∧
      jsMapGet (disconnectTab st tabId).networkRequests tabId = none ∧
      jsMapGet (disconnectTab st tabId).networkResponses tabId = none) := by
  have hoff := isConnected_disconnectTab st tabId hnd
  refine ⟨hoff, ?_, ?_, ?_, ?_, ?_⟩
  · unfold consoleSearchHandler
    rw [hoff]
    rfl
  · unfold networkAnalyzeHandler
    rw [hoff]
    rfl
  · unfold networkPerformanceHandler
    rw [hoff]
    rfl
  · unfold errorCorrelateHandler
    rw [hoff]
    rfl
  · intro hon
    unfold disconnectTab
    have hco : st.connections.contains tabId = true := hon
    rw [if_pos hco]
    exact ⟨jsMapGet_jsMapDelete_self hcm tabId,
      jsMapGet_jsMapDelete_self hrq tabId,
      jsMapGet_jsMapDelete_self hrp tabId⟩

/-- Witness for C2 at a concrete open session. -/
theorem c2_close_session_witness :
    (c2StateW.connections.Nodup ∧
      (c2StateW.consoleMessages.map Prod.fst).Nodup ∧
      (c2StateW.networkRequests.map Prod.fst).Nodup ∧
      (c2StateW.networkResponses.map Prod.fst).Nodup ∧
      isConnected c2StateW "tab1" = true) ∧
    (isConnected (disconnectTab c2StateW "tab1") "tab1" = false ∧
      consoleSearchHandler (fun _ _ _ => false) (disconnectTab c2StateW
        "tab1") "tab1" {} = Except.error (notConnectedMsg "tab1") ∧
      networkAnalyzeHandler (fun _ _ => false) (disconnectTab c2StateW
        "tab1") "tab1" {} = Except.error (notConnectedMsg "tab1") ∧
      networkPerformanceHandler (disconnectTab c2StateW "tab1") "tab1" =
        Except.error (notConnectedMsg "tab1") ∧
      errorCorrelateHandler (disconnectTab c2StateW "tab1") "tab1" none =
        Except.error (notConnectedMsg "tab1") ∧
      (jsMapGet (disconnectTab c2StateW "tab1").consoleMessages "tab1" =
          none ∧
        jsMapGet (disconnectTab c2StateW "tab1").networkRequests "tab1" =
          none ∧
        jsMapGet (disconnectTab c2StateW "tab1").networkResponses "tab1" =
          none)) := by
  have h := c2_close_session (fun _ _ _ => false) (fun _ _ => false)
    c2StateW "tab1" {} {} none (by decide) (by decide) (by decide)
    (by decide)
  exact ⟨⟨by decide, by decide, by decide, by decide, by decide⟩,
    h.1, h.2.1, h.2.2.1, h.2.2.2.1, h.2.2.2.2.1,
    h.2.2.2.2.2 (by decide)⟩

theorem cascadesAuxF_min_length :
    ∀ (fuel i : Nat) (l : List ConsoleMessage)
      (p : Nat × List ConsoleMessage),
      p ∈ cascadesAuxF fuel i l → 2 < p.2.length := by
  intro fuel
  induction fuel with
  | zero =>
    intro i l p hp
    cases l <;> simp [cascadesAuxF] at hp
  | succ fuel ih =>
    intro i l p hp
    cases l with
    | nil => simp [cascadesAuxF] at hp
    | cons m rest =>
      rw [show cascadesAuxF (fuel + 1) i (m :: rest) =
        (if (cascadeFrom m rest).length > 2 then
          (i, cascadeFrom m rest) :: cascadesAuxF fuel
            (i + (cascadeFrom m rest).length)
            (rest.drop ((cascadeFrom m rest).length - 1))
        else cascadesAuxF fuel (i + 1) rest) from rfl] at hp
      by_cases hc : (cascadeFrom m rest).length > 2
      · rw [if_pos hc] at hp
        rcases List.mem_cons.mp hp with hp | hp
        · subst hp
          exact hc
        · exact ih _ _ _ hp
      · rw [if_neg hc] at hp
        exact ih _ _ _ hp

theorem addToGroups_inv (x : ConsoleMessage) :
    ∀ (groups : List (List ConsoleMessage)),
      (∀ g ∈ groups, ∀ m0 rest, g = m0 :: rest →
        ∀ e ∈ rest, areSimilarErrors e.text m0.text = true) →
      ∀ g ∈ addToGroups groups x, ∀ m0 rest, g = m0 :: rest →
        ∀ e ∈ rest, areSimilarErrors e.text m0.text = true := by
  intro groups
  induction groups with
  | nil =>
    intro _ g hg m0 rest hrest e he
    simp only [addToGroups, List.mem_singleton] at hg
    subst hg
    obtain ⟨rfl, hr⟩ := List.cons_eq_cons.mp hrest
    rw [← hr] at he
    simp at he
  | cons g0 grest ih =>
    intro hP g hg m0 rest hrest e he
    cases g0 with
    | nil =>
      have hred : addToGroups ([] :: grest) x =
          [] :: addToGroups grest x := rfl
      rw [hred] at hg
      rcases List.mem_cons.mp hg with rfl | hg2
      · exact absurd hrest (by simp)
      · exact ih (fun g hgm => hP g (List.mem_cons_of_mem _ hgm)) g hg2
          m0 rest hrest e he
    | cons h0 t0 =>
      by_cases hsim : areSimilarErrors x.text h0.text
      · have hred : addToGroups ((h0 :: t0) :: grest) x =
            ((h0 :: t0) ++ [x]) :: grest := by
          simp [addToGroups, hsim]
        rw [hred] at hg
        rcases List.mem_cons.mp hg with rfl | hg2
        · simp only [List.cons_append] at hrest
          obtain ⟨rfl, hr⟩ := List.cons_eq_cons.mp hrest
          rw [← hr] at he
          rcases List.mem_append.mp he with he2 | he2
          · exact hP (h0 :: t0) (List.mem_cons_self _ _) h0 t0 rfl e he2
          · rw [List.mem_singleton.mp he2]
            exact hsim
        · exact hP g (List.mem_cons_of_mem _ hg2) m0 rest hrest e he
      · have hred : addToGroups ((h0 :: t0) :: grest) x =
            (h0 :: t0) :: addToGroups grest x := by
          simp [addToGroups, hsim]
        rw [hred] at hg
        rcases List.mem_cons.mp hg with rfl | hg2
        · exact hP _ (List.mem_cons_self _ _) m0 rest hrest e he
        · exact ih (fun g hgm => hP g (List.mem_cons_of_mem _ hgm)) g hg2
            m0 rest hrest e he

theorem foldl_addToGroups_inv :
    ∀ (es : List ConsoleMessage) (acc : List (List ConsoleMessage)),
      (∀ g ∈ acc, ∀ m0 rest, g = m0 :: rest →
        ∀ e ∈ rest, areSimilarErrors e.text m0.text = true) →
      ∀ g ∈ es.foldl addToGroups acc, ∀ m0 rest, g = m0 :: rest →
        ∀ e ∈ rest, areSimilarErrors e.text m0.text = true := by
  intro es
  induction es with
  | nil => intro acc hP; simpa using hP
  | cons x es ih =>
    intro acc hP
    rw [List.foldl_cons]
    exact ih _ (addToGroups_inv x acc hP)

/-- C7 counterexample: on c7Msgs the first cascade has members at
positions 0, 2 and 4 of the sorted errors; the loop skips by size
(two positions), so the message at t=4000 -- a member of the first
cascade -- seeds the second cascade.  The claim that no later cascade is
seeded by a member of an earlier one is therefore false. -/
theorem c7_cascade_counterexample :
    (findCascadingErrors c7Msgs).map (fun c => c.consoleMessages) =
      [[c7Msg 0 "alpha beta", c7Msg 2000 "has alpha inside",
        c7Msg 4000 "alpha gamma"],
       [c7Msg 4000 "alpha gamma", c7Msg 5000 "gamma delta",
        c7Msg 6000 "gamma epsilon"]] ∧
    c7Msg 4000 "alpha gamma" ∈
      [c7Msg 0 "alpha beta", c7Msg 2000 "has alpha inside",
        c7Msg 4000 "alpha gamma"] := by
  decide

/-- C7 (amended): every cascade finding contains at least 3 errors; the
reporting skip advances the scan by the cascade size, which prevents
re-seeding only when the members are contiguous -- with non-contiguous
members a later cascade may be seeded by a member of an earlier one
(see the counterexample). -/
theorem c7_cascade_amended (messages : List ConsoleMessage) :
    ∀ f ∈ findCascadingErrors messages,
      f.corrType = CorrType.cascade ∧ 3 ≤ f.consoleMessages.length := by
  intro f hf
  unfold findCascadingErrors at hf
  obtain ⟨p, hp, rfl⟩ := List.mem_map.mp hf
  exact ⟨rfl, cascadesAuxF_min_length _ _ _ _ hp⟩

/-- Witness for C7 at the concrete snapshot c7Msgs and its first
cascade finding. -/
theorem c7_cascade_amended_witness :
    c7F1 ∈ findCascadingErrors c7Msgs ∧
    (c7F1.corrType = CorrType.cascade ∧ 3 ≤ c7F1.consoleMessages.length) :=
  ⟨by decide, c7_cascade_amended c7Msgs c7F1 (by decide)⟩

/-- C8 counterexample: B and C land in the same group (and the same
repeated-error finding) although their normalized texts differ and
their keyword-overlap ratio is 0 < 0.8; each is similar only to the
group seed A.  The pairwise claim is therefore false. -/
theorem c8_cluster_counterexample :
    buildErrorGroups [c8A, c8B, c8C] = [[c8A, c8B, c8C]] ∧
    (findRepeatedErrors [c8A, c8B, c8C]).map (fun c => c.consoleMessages) =
      [[c8A, c8B, c8C]] ∧
    normalizeErrorText c8B.text ≠ normalizeErrorText c8C.text ∧
    5 * ((extractKeywords c8B.text).filter
      (fun k => (extractKeywords c8C.text).contains k)).length <
      4 * min (extractKeywords c8B.text).length
        (extractKeywords c8C.text).length := by
  decide

/-- C8 (amended): every non-seed member of a repeated-error group is
similar (equal normalized text, or keyword-overlap ratio at least 0.8)
to the group FIRST member -- similarity is checked against the seed
only, so two non-seed members need not be similar to each other; and
every repeated-error finding is such a group of size at least 3. -/
theorem c8_cluster_amended :
    (∀ (errors : List ConsoleMessage), ∀ g ∈ buildErrorGroups errors,
      ∀ m0 rest, g = m0 :: rest →
        ∀ e ∈ rest, areSimilarErrors e.text m0.text = true) ∧
    (∀ (messages : List ConsoleMessage), ∀ c ∈ findRepeatedErrors messages,
      c.consoleMessages ∈ buildErrorGroups
        (messages.filter (fun m => m.level == LogLevel.error)) ∧
      3 ≤ c.consoleMessages.length) := by
  constructor
  · intro errors
    exact foldl_addToGroups_inv errors [] (by simp)
  · intro messages c hc
    unfold findRepeatedErrors at hc
    obtain ⟨g, hg, hf⟩ := List.mem_filterMap.mp hc
    by_cases hlen : g.length ≥ 3
    · rw [if_pos hlen] at hf
      have hmsg : c.consoleMessages = g := by
        cases hf2 : c
        simp [hf2] at hf
        simp [← hf]
      rw [hmsg]
      exact ⟨hg, hlen⟩
    · rw [if_neg hlen] at hf
      cases hf

/-- Witness for C8: the group seeded by A on the concrete errors, with
B as the non-seed member. -/
theorem c8_cluster_amended_witness :
    ([c8A, c8B, c8C] ∈ buildErrorGroups [c8A, c8B, c8C] ∧
      c8B ∈ [c8B, c8C]) ∧
    areSimilarErrors c8B.text c8A.text = true :=
  ⟨⟨by decide, by decide⟩,
    c8_cluster_amended.1 [c8A, c8B, c8C] [c8A, c8B, c8C] (by decide)
      c8A [c8B, c8C] rfl c8B (by decide)⟩

/-- The include-mode rejection unfolded into the claim's two cases. -/
theorem c6IncludeFail_iff (env : String → Option (String → Bool))
    (opts : AdvancedSearchOptions) (msg : ConsoleMessage) :
    c6IncludeFail env opts msg = true ↔
    ∃ pc inc, opts.patterns = some pc ∧ pc.includePatterns = some inc ∧
      ((pc.mode.getD MatchMode.any = MatchMode.any ∧
          c6IncludeCount env opts msg = 0) ∨
        (pc.mode.getD MatchMode.any = MatchMode.all ∧
          c6IncludeCount env opts msg < inc.length)) := by
  unfold c6IncludeFail c6IncludeCount
  cases hp : opts.patterns with
  | none => simp
  | some pc =>
    cases hi : pc.includePatterns with
    | none => simp [hi]
    | some inc =>
      cases hm : pc.mode.getD MatchMode.any with
      | any => simp [hi, hm, List.length_eq_zero]
      | all => simp [hi, hm]

/-- C6: matching the all-defaults configuration with an empty include
list under AND mode trips none of the claim's three no-match conditions
(no exclude hit, the mode is AND, and every include pattern -- there are
none -- matched), yet the matcher returns no-match because the score is
0. -/
theorem c6_matcher_counterexample :
    matchConsoleMessage (fun _ => none) (fun _ _ => none) c6Opts c6Msg =
      none ∧
    c6ExcludeHit (fun _ => none) c6Opts c6Msg = false ∧
    (c6Opts.patterns.getD {}).mode.getD MatchMode.any = MatchMode.all ∧
    c6IncludeCount (fun _ => none) c6Opts c6Msg =
      ((c6Opts.patterns.getD {}).includePatterns.getD []).length := by
  decide

/-- C6 (amended): the matcher produces no-match exactly when the record
hit an exclude pattern, matched zero include patterns under OR mode,
failed to match all include patterns under AND mode, or -- the case the
claim misses -- accumulated a score of 0; every match carries the score
10 per include hit + 5 per named hit + 3 per field hit. -/
theorem c6_matcher_amended (env : String → Option (String → Bool))
    (envField : String → Bool → Option (String → Bool))
    (opts : AdvancedSearchOptions) (msg : ConsoleMessage) :
    (matchConsoleMessage env envField opts msg = none ↔
      c6NoMatchSpec env envField opts msg) ∧
    (∀ s, matchConsoleMessage env envField opts msg = some s →
      s = 10 * c6IncludeCount env opts msg + 5 * c6NamedCount env opts msg +
        3 * c6FieldCount envField opts msg) := by
  unfold matchConsoleMessage c6NoMatchSpec
  by_cases hex : c6ExcludeHit env opts msg = true
  · rw [if_pos hex]
    exact ⟨⟨fun _ => Or.inl hex, fun _ => rfl⟩, fun s hs => nomatch hs⟩
  · rw [if_neg hex]
    by_cases hinc : c6IncludeFail env opts msg = true
    · rw [if_pos hinc]
      refine ⟨⟨fun _ => Or.inr (Or.inl ?_), fun _ => rfl⟩,
        fun s hs => nomatch hs⟩
      exact (c6IncludeFail_iff env opts msg).mp hinc
    · rw [if_neg hinc]
      by_cases hpos : 10 * c6IncludeCount env opts msg +
          5 * c6NamedCount env opts msg +
          3 * c6FieldCount envField opts msg > 0
      · rw [if_pos hpos]
        constructor
        · constructor
          · intro h
            exact absurd h (Option.some_ne_none _)
          · intro h
            rcases h with h | h | h
            · exact absurd h hex
            · exact absurd ((c6IncludeFail_iff env opts msg).mpr h) hinc
            · exact absurd h (by omega)
        · intro s hs
          injection hs with h
          omega
      · rw [if_neg hpos]
        refine ⟨⟨fun _ => Or.inr (Or.inr (by omega)), fun _ => rfl⟩,
          fun s hs => nomatch hs⟩

/-- C6 witness: a single matching include pattern yields a match with
score 10, equal to the 10/5/3 weighted formula. -/
theorem c6_matcher_amended_witness :
    matchConsoleMessage c6EnvW (fun _ _ => none) c6OptsW c6Msg =
      some 10 ∧
    (10 : Nat) = 10 * c6IncludeCount c6EnvW c6OptsW c6Msg +
      5 * c6NamedCount c6EnvW c6OptsW c6Msg +
      3 * c6FieldCount (fun _ _ => none) c6OptsW c6Msg :=
  ⟨by decide,
    (c6_matcher_amended c6EnvW (fun _ _ => none) c6OptsW c6Msg).2 10
      (by decide)⟩


/-- Invariant of the header-scan loop: finding domains are distinct and
avoid both the already-checked set and loopback; every finding misses a
header and carries the derived id, type and severity. -/
theorem c9Aux_inv (lookup : String → Option NetworkResponse) :
    ∀ (reqs : List NetworkRequest) (checked : List String),
      ((scanSecurityHeadersAux lookup reqs checked).map
        (fun i => i.domain)).Nodup ∧
      ∀ i ∈ scanSecurityHeadersAux lookup reqs checked,
        i.domain ∉ checked ∧ i.domain ≠ "localhost" ∧
        i.domain ≠ "127.0.0.1" ∧ i.missingHeaders ≠ [] ∧
        i.issueType = "missing-headers" ∧
        i.id = "missing-headers-" ++ i.domain ∧
        (i.severity = "high" ↔
          "Strict-Transport-Security" ∈ i.missingHeaders) := by
  intro reqs
  induction reqs with
  | nil =>
    intro checked
    refine ⟨by simp [scanSecurityHeadersAux], ?_⟩
    intro i hi
    simp [scanSecurityHeadersAux] at hi
  | cons request rest ih =>
    intro checked
    cases hlk : lookup request.requestId with
    | none => simpa [scanSecurityHeadersAux, hlk] using ih checked
    | some response =>
      by_cases hst : response.status ≥ 400
      · simpa [scanSecurityHeadersAux, hlk, hst] using ih checked
      · by_cases hchk : hostnameOf request.url ∈ checked
        · simpa [scanSecurityHeadersAux, hlk, hst, hchk] using ih checked
        · by_cases hloop : hostnameOf request.url = "localhost" ∨
            hostnameOf request.url = "127.0.0.1"
          · have h := ih (checked ++ [hostnameOf request.url])
            refine ⟨by simpa [scanSecurityHeadersAux, hlk, hst, hchk, hloop]
              using h.1, ?_⟩
            intro i hi
            rw [scanSecurityHeadersAux] at hi
            simp only [hlk, if_neg hst, if_neg hchk, if_pos hloop] at hi
            have h2 := h.2 i hi
            have hnot : i.domain ∉ checked := by
              intro hmem
              exact h2.1 (List.mem_append_left _ hmem)
            exact ⟨hnot, h2.2⟩
          · by_cases hmiss : (missingSecurityHeaders response).length > 0
            · have h := ih (checked ++ [hostnameOf request.url])
              have hstep : scanSecurityHeadersAux lookup
                  (request :: rest) checked =
                  { id := "missing-headers-" ++ hostnameOf request.url
                    issueType := "missing-headers"
                    severity :=
                      if (missingSecurityHeaders response).contains
                          "Strict-Transport-Security" then "high"
                      else "medium"
                    domain := hostnameOf request.url
                    missingHeaders := missingSecurityHeaders response
                    url := request.url } ::
                    scanSecurityHeadersAux lookup rest
                      (checked ++ [hostnameOf request.url]) := by
                rw [scanSecurityHeadersAux]
                simp only [hlk, if_neg hst, if_neg hchk, if_neg hloop,
                  if_pos hmiss]
              constructor
              · rw [hstep]
                simp only [List.map_cons, List.nodup_cons]
                refine ⟨?_, h.1⟩
                intro hmem
                simp only [List.mem_map] at hmem
                obtain ⟨j, hj, hdom⟩ := hmem
                exact (h.2 j hj).1 (by
                  rw [hdom]
                  exact List.mem_append_right _ (List.mem_singleton.mpr rfl))
              · intro i hi
                rw [hstep] at hi
                rcases List.mem_cons.mp hi with hi | hi
                · subst hi
                  have hcontains : ((missingSecurityHeaders
                      response).contains "Strict-Transport-Security" =
                      true) ↔
                      "Strict-Transport-Security" ∈
                        missingSecurityHeaders response := by
                    rw [show ((missingSecurityHeaders response).contains
                        "Strict-Transport-Security") =
                        ((missingSecurityHeaders response).elem
                        "Strict-Transport-Security") from rfl,
                      List.elem_eq_mem, decide_eq_true_eq]
                  refine ⟨hchk, fun hl => hloop (Or.inl hl),
                    fun hl => hloop (Or.inr hl), ?_, rfl, rfl, ?_⟩
                  · show missingSecurityHeaders response ≠ []
                    intro he
                    rw [he] at hmiss
                    simp at hmiss
                  · show (if (missingSecurityHeaders response).contains
                        "Strict-Transport-Security" = true then "high"
                      else "medium") = "high" ↔
                      "Strict-Transport-Security" ∈
                        missingSecurityHeaders response
                    by_cases hc : (missingSecurityHeaders
                        response).contains "Strict-Transport-Security" =
                        true
                    · rw [if_pos hc]
                      exact ⟨fun _ => hcontains.mp hc, fun _ => rfl⟩
                    · rw [if_neg hc]
                      constructor
                      · intro hsev
                        exact absurd hsev (by decide)
                      · intro hmem
                        exact absurd (hcontains.mpr hmem) hc
                · have h2 := h.2 i hi
                  have hnot : i.domain ∉ checked := by
                    intro hmem
                    exact h2.1 (List.mem_append_left _ hmem)
                  exact ⟨hnot, h2.2⟩
            · have h := ih (checked ++ [hostnameOf request.url])
              have hstep : scanSecurityHeadersAux lookup
                  (request :: rest) checked =
                  scanSecurityHeadersAux lookup rest
                    (checked ++ [hostnameOf request.url]) := by
                rw [scanSecurityHeadersAux]
                simp only [hlk, if_neg hst, if_neg hchk, if_neg hloop,
                  if_neg hmiss]
              rw [hstep]
              refine ⟨h.1, ?_⟩
              intro i hi
              have h2 := h.2 i hi
              have hnot : i.domain ∉ checked := by
                intro hmem
                exact h2.1 (List.mem_append_left _ hmem)
              exact ⟨hnot, h2.2⟩

/-- C9: the snapshot holds a response from the non-loopback host
site.test missing every checklist header (request 2), yet the scan
reports nothing: the host was marked checked by request 1, whose
response carried all seven headers. -/
theorem c9_headers_counterexample :
    scanSecurityHeaders c9Requests (responseMapGet c9Resps) = [] ∧
    responseMapGet c9Resps c9Req2.requestId = some c9Resp2 ∧
    hostnameOf c9Req2.url = "site.test" ∧
    missingSecurityHeaders c9Resp2 = securityHeaders ∧
    ("site.test" : String) ≠ "localhost" ∧
    ("site.test" : String) ≠ "127.0.0.1" := by
  decide

/-- C9 (amended): the scan emits at most one missing-headers finding
per distinct hostname, never for loopback hosts, and every finding
misses at least one checklist header; whether a host is flagged is
decided by the first successfully answered request to it. -/
theorem c9_headers_amended (lookup : String → Option NetworkResponse)
    (requests : List NetworkRequest) :
    ((scanSecurityHeaders requests lookup).map
      (fun i => i.domain)).Nodup ∧
    ∀ i ∈ scanSecurityHeaders requests lookup,
      i.domain ≠ "localhost" ∧ i.domain ≠ "127.0.0.1" ∧
      i.missingHeaders ≠ [] ∧ i.issueType = "missing-headers" ∧
      i.id = "missing-headers-" ++ i.domain ∧
      (i.severity = "high" ↔
        "Strict-Transport-Security" ∈ i.missingHeaders) :=
  ⟨(c9Aux_inv lookup requests []).1,
    fun i hi => ((c9Aux_inv lookup requests []).2 i hi).2⟩

/-- C9 witness: a lone headerless 200 response from site.test yields a
finding, and the amended invariants hold of it. -/
theorem c9_headers_amended_witness :
    c9IssueW ∈ scanSecurityHeaders c9ReqsW (responseMapGet c9RespsW) ∧
    c9IssueW.domain ≠ "localhost" ∧ c9IssueW.missingHeaders ≠ [] :=
  ⟨by decide,
    ((c9_headers_amended (responseMapGet c9RespsW) c9ReqsW).2 c9IssueW
      (by decide)).1,
    (((c9_headers_amended (responseMapGet c9RespsW) c9ReqsW).2 c9IssueW
      (by decide)).2).2.1⟩


/-- C10: the scan is neither history-free nor deterministic across
calls.  Two requests with the same password-bearing URL in one scan
yield a sensitive-data finding only for the first: the /g password
pattern's lastIndex, advanced by the first hit, makes the second test
resume past the only occurrence and fail.  Scanned alone from a fresh
scanner the second request IS flagged, and an immediate second call on
the same instance returns no findings at all for input on which the
first call returned one. -/
theorem c10_scanner_state_bug :
    ((scanNetworkSecurity [c10Req1, c10Req2] freshScannerState).1.map
      (fun i => i.id) = ["url-sensitive-1-password"]) ∧
    ((scanNetworkSecurity [c10Req2] freshScannerState).1.map
      (fun i => i.id) = ["url-sensitive-2-password"]) ∧
    ((scanNetworkSecurity [c10Req2]
      ((scanNetworkSecurity [c10Req2] freshScannerState).2)).1 = []) := by
  decide


end BrowserConnect
